import Mathlib

/-!
# Verification of the MotorSync engine mock (EngineMock/)

Shallow embedding of the two engine variants of the repository:

* `Enhanced` embeds `enhanced_motor_engine.cpp` (multi-machine registry,
  per-machine physics update, edge nodes, ML models, accessors with
  sentinel returns for invalid indices).
* `Legacy` embeds `motor_engine.cpp` (single aggregate motor with the
  per-reading update-coalescing flag).

Modelling conventions:

* C++ `double` values are modelled as `ℚ` (exact arithmetic over the
  decimal literals of the source).
* The shared `std::mt19937 gen` / C `rand()` pseudo-random sources are
  modelled as an explicit stream `List ℕ` of draws carried in the state;
  `gen() % k` consumes the head of the stream.  `std::uniform_real_distribution`
  draws (`random_double(lo,hi)`) are modelled as a stream `List ℚ` of
  unit-interval samples mapped affinely into `[lo,hi]`.
* Wall-clock-dependent quantities (`isWorkingHours()`, `getSeasonalFactor()`,
  elapsed session time) and the transcendental library functions
  (`sin`, `cos`, `sqrt`) are environment parameters (`Env`, `LEnv`).
* `std::mt19937::result_type` is unsigned (`uint_fast32_t`, 64-bit on
  LP64 platforms), so expressions such as `(gen() % 400) - 200` wrap
  modulo `2 ^ 64` instead of going negative; `usub64` models this.
* `(int)` casts of a `double` truncate toward zero (`cppTruncInt`);
  C++ `%` on `int` is truncated modulo (`Int.tmod`).
-/

namespace MotorSync

/-- `std::max(lo, std::min(hi, x))`, the clamping pattern used throughout
both engine files. -/
def cppClamp (lo hi x : ℚ) : ℚ := max lo (min hi x)

/-- The clamped value never exceeds the upper bound (when the bounds are
ordered). -/
lemma cppClamp_le {lo hi : ℚ} (x : ℚ) (h : lo ≤ hi) : cppClamp lo hi x ≤ hi :=
  max_le h (min_le_left _ _)

/-- The clamped value is at least the lower bound. -/
lemma le_cppClamp (lo hi x : ℚ) : lo ≤ cppClamp lo hi x :=
  le_max_left _ _

/-- A value below both the input and the upper bound is below the clamp;
this is how monotonicity survives the `max(0, min(1, ·))` clamps. -/
lemma le_cppClamp_of {w x hi : ℚ} (lo : ℚ) (hx : w ≤ x) (hhi : w ≤ hi) :
    w ≤ cppClamp lo hi x :=
  le_trans (le_min hhi hx) (le_max_right _ _)

/-- C++ cast of a floating value to `int`: truncation toward zero. -/
def cppTruncInt (q : ℚ) : ℤ := if 0 ≤ q then ⌊q⌋ else ⌈q⌉

/-- Unsigned 64-bit subtraction `a - b` as performed by C++ on
`uint_fast32_t` operands (LP64): wraps modulo `2 ^ 64`. -/
def usub64 (a b : ℕ) : ℕ := (a + (2 ^ 64 - b % 2 ^ 64)) % 2 ^ 64

namespace Enhanced

/-- `MachineType` of `enhanced_motor_engine.hpp` with its integer codes. -/
inductive MachineType where
  | motor | pump | conveyor | compressor | fan
  | generator | turbine | crusher | mixer | press
deriving DecidableEq, Repr, Inhabited

/-- The integer value of the C `enum` constant. -/
def MachineType.toCode : MachineType → ℤ
  | .motor => 0 | .pump => 1 | .conveyor => 2 | .compressor => 3 | .fan => 4
  | .generator => 5 | .turbine => 6 | .crusher => 7 | .mixer => 8 | .press => 9

/-- `struct MachineState` of `enhanced_motor_engine.cpp`.  The two
`std::chrono` time points are modelled as abstract clock readings `ℕ`. -/
structure MachineState where
  type : MachineType
  id : String
  name : String
  isRunning : Bool
  currentSpeed : ℚ
  targetSpeed : ℚ
  temperature : ℚ
  load : ℚ
  efficiency : ℚ
  powerConsumption : ℚ
  vibration : ℚ
  pressure : ℚ
  flowRate : ℚ
  bearingWear : ℚ
  oilDegradation : ℚ
  operatingHours : ℚ
  lastMaintenance : ℕ
  installationTime : ℕ
  maintenanceStatus : ℤ
  healthScore : ℚ
deriving DecidableEq, Repr

/-- `struct EdgeNode` of `enhanced_motor_engine.cpp`. -/
structure EdgeNode where
  id : String
  name : String
  location : String
  cpuUsage : ℚ
  memoryUsage : ℚ
  networkLatency : ℚ
  processingTime : ℚ
  storageUsed : ℚ
  bandwidthUsage : ℚ
  isOnline : Bool
  connectedMachines : ℤ
  lastSync : ℕ
deriving DecidableEq, Repr

/-- `struct MLModel` of `enhanced_motor_engine.cpp`. -/
structure MLModel where
  modelId : String
  modelName : String
  accuracy : ℚ
  confidence : ℚ
  failureProbability : ℚ
  remainingUsefulLife : ℚ
  featureWeights : List ℚ
  lastTraining : ℕ
  predictionCount : ℤ
deriving DecidableEq, Repr

/-- Ambient environment of the multi-machine engine: the transcendental
functions of `<cmath>`, the wall-clock-derived `getSeasonalFactor()` and
`isWorkingHours()` results, and the current clock reading. -/
structure Env where
  sinq : ℚ → ℚ
  cosq : ℚ → ℚ
  seasonalFactor : ℚ
  workingHours : Bool
  now : ℕ

/-- The `mainMotor` literal of `initializeIndustrialSystem` (index 0). -/
def mkMainMotor (t0 : ℕ) : MachineState :=
  { type := .motor, id := "MOTOR-001", name := "Main Drive Motor"
    isRunning := true, currentSpeed := 2500, targetSpeed := 2500
    temperature := 65, load := 0.7, efficiency := 92, powerConsumption := 4.5
    vibration := 1.5, pressure := 3.5, flowRate := 15
    bearingWear := 0, oilDegradation := 0, operatingHours := 0
    lastMaintenance := t0, installationTime := t0
    maintenanceStatus := 0, healthScore := 95 }

/-- Loop body of the pump initialization (`i = 1..3`). -/
def mkPump (wh : Bool) (t0 : ℕ) (i : ℕ) : MachineState :=
  { type := .pump, id := "PUMP-" ++ toString (100 + i)
    name := "Industrial Pump " ++ toString i
    isRunning := wh, currentSpeed := 1800 + i * 100, targetSpeed := 1800 + i * 100
    temperature := 55 + i * 5, load := 0.6 + i * 0.1, efficiency := 88 + i * 2
    powerConsumption := 3.2 + i * 0.5, vibration := 1.2 + i * 0.1
    pressure := 8 + i * 2, flowRate := 25 + i * 5
    bearingWear := 0, oilDegradation := 0, operatingHours := 0
    lastMaintenance := t0, installationTime := t0
    maintenanceStatus := 0, healthScore := 92 + i * 1 }

/-- Loop body of the conveyor initialization (`i = 1..2`). -/
def mkConveyor (wh : Bool) (t0 : ℕ) (i : ℕ) : MachineState :=
  { type := .conveyor, id := "CONV-" ++ toString (100 + i)
    name := "Conveyor Belt " ++ toString i
    isRunning := wh, currentSpeed := 120 + i * 20, targetSpeed := 120 + i * 20
    temperature := 45 + i * 3, load := 0.5 + i * 0.15, efficiency := 85 + i * 3
    powerConsumption := 2.8 + i * 0.3, vibration := 0.8 + i * 0.1
    pressure := 0, flowRate := 0
    bearingWear := 0, oilDegradation := 0, operatingHours := 0
    lastMaintenance := t0, installationTime := t0
    maintenanceStatus := 0, healthScore := 90 + i * 2 }

/-- Loop body of the compressor initialization (`i = 1..2`). -/
def mkCompressor (wh : Bool) (t0 : ℕ) (i : ℕ) : MachineState :=
  { type := .compressor, id := "COMP-" ++ toString (100 + i)
    name := "Air Compressor " ++ toString i
    isRunning := wh, currentSpeed := 3000 + i * 200, targetSpeed := 3000 + i * 200
    temperature := 75 + i * 8, load := 0.8 + i * 0.1, efficiency := 82 + i * 4
    powerConsumption := 7.5 + i * 1.5, vibration := 2.1 + i * 0.2
    pressure := 12 + i * 3, flowRate := 8 + i * 2
    bearingWear := 0, oilDegradation := 0, operatingHours := 0
    lastMaintenance := t0, installationTime := t0
    maintenanceStatus := 0, healthScore := 88 + i * 3 }

/-- Loop body of the fan initialization (`i = 1..2`). -/
def mkFan (wh : Bool) (t0 : ℕ) (i : ℕ) : MachineState :=
  { type := .fan, id := "FAN-" ++ toString (100 + i)
    name := "Industrial Fan " ++ toString i
    isRunning := wh, currentSpeed := 800 + i * 100, targetSpeed := 800 + i * 100
    temperature := 30 + i * 2, load := 0.4 + i * 0.1, efficiency := 85 + i * 3
    powerConsumption := 2.6 + i * 0.4, vibration := 0.6 + i * 0.1
    pressure := 0, flowRate := 120 + i * 20
    bearingWear := 0, oilDegradation := 0, operatingHours := 0
    lastMaintenance := t0, installationTime := t0
    maintenanceStatus := 0, healthScore := 92 + i * 2 }

/-- Loop body of the backup generator initialization (`i = 1..2`);
backup generators start stopped. -/
def mkGenerator (t0 : ℕ) (i : ℕ) : MachineState :=
  { type := .generator, id := "GEN-" ++ toString (100 + i)
    name := "Backup Generator " ++ toString i
    isRunning := false, currentSpeed := 0, targetSpeed := 1800
    temperature := 25, load := 0, efficiency := 92 + i * 2
    powerConsumption := 0, vibration := 0.2
    pressure := 0, flowRate := 0
    bearingWear := 0, oilDegradation := 0, operatingHours := 0
    lastMaintenance := t0, installationTime := t0
    maintenanceStatus := 0, healthScore := 95 + i * 1 }

/-- The steam turbine literal (`i = 1`). -/
def mkTurbine (wh : Bool) (t0 : ℕ) (i : ℕ) : MachineState :=
  { type := .turbine, id := "TURB-" ++ toString (100 + i)
    name := "Steam Turbine " ++ toString i
    isRunning := wh, currentSpeed := 3600, targetSpeed := 3600
    temperature := 120, load := 0.9, efficiency := 88
    powerConsumption := 0, vibration := 1.8
    pressure := 45, flowRate := 150
    bearingWear := 0, oilDegradation := 0, operatingHours := 0
    lastMaintenance := t0, installationTime := t0
    maintenanceStatus := 0, healthScore := 89 }

/-- The jaw crusher literal (`i = 1`). -/
def mkCrusher (wh : Bool) (t0 : ℕ) (i : ℕ) : MachineState :=
  { type := .crusher, id := "CRUSH-" ++ toString (100 + i)
    name := "Jaw Crusher " ++ toString i
    isRunning := wh, currentSpeed := 250, targetSpeed := 250
    temperature := 45, load := 0.8, efficiency := 78
    powerConsumption := 75, vibration := 3.5
    pressure := 0, flowRate := 0
    bearingWear := 0, oilDegradation := 0, operatingHours := 0
    lastMaintenance := t0, installationTime := t0
    maintenanceStatus := 0, healthScore := 82 }

/-- Loop body of the mixer initialization (`i = 1..2`). -/
def mkMixer (wh : Bool) (t0 : ℕ) (i : ℕ) : MachineState :=
  { type := .mixer, id := "MIX-" ++ toString (100 + i)
    name := "Industrial Mixer " ++ toString i
    isRunning := wh, currentSpeed := 60 + i * 20, targetSpeed := 60 + i * 20
    temperature := 40 + i * 5, load := 0.6 + i * 0.1, efficiency := 87 + i * 2
    powerConsumption := 5.5 + i * 1, vibration := 1.2 + i * 0.2
    pressure := 0, flowRate := 0
    bearingWear := 0, oilDegradation := 0, operatingHours := 0
    lastMaintenance := t0, installationTime := t0
    maintenanceStatus := 0, healthScore := 90 + i * 2 }

/-- The hydraulic press literal (`i = 1`). -/
def mkPress (wh : Bool) (t0 : ℕ) (i : ℕ) : MachineState :=
  { type := .press, id := "PRESS-" ++ toString (100 + i)
    name := "Hydraulic Press " ++ toString i
    isRunning := wh, currentSpeed := 0, targetSpeed := 0
    temperature := 35, load := 0.7, efficiency := 85
    powerConsumption := 45, vibration := 0.8
    pressure := 200, flowRate := 0
    bearingWear := 0, oilDegradation := 0, operatingHours := 0
    lastMaintenance := t0, installationTime := t0
    maintenanceStatus := 0, healthScore := 88 }

/-- The machine part of `initializeIndustrialSystem`, with the loops of
the source unrolled in push order. -/
def initMachines (wh : Bool) (t0 : ℕ) : List MachineState :=
  [mkMainMotor t0,
   mkPump wh t0 1, mkPump wh t0 2, mkPump wh t0 3,
   mkConveyor wh t0 1, mkConveyor wh t0 2,
   mkCompressor wh t0 1, mkCompressor wh t0 2,
   mkFan wh t0 1, mkFan wh t0 2,
   mkGenerator t0 1, mkGenerator t0 2,
   mkTurbine wh t0 1,
   mkCrusher wh t0 1,
   mkMixer wh t0 1, mkMixer wh t0 2,
   mkPress wh t0 1]

instance : Inhabited MachineState := ⟨mkMainMotor 0⟩

/-- Maintenance-status computation at the end of `updateMachinePhysics`
(lines 634-643): 2 = Critical, 1 = Warning, 3 = Maintenance Due, 0 = Good. -/
def maintStatusOf (wear oil temp vib eff hours : ℚ) : ℤ :=
  if wear > 0.1 ∨ oil > 0.05 ∨ temp > 90 ∨ vib > 3 then 2
  else if wear > 0.05 ∨ oil > 0.02 ∨ temp > 80 ∨ vib > 2.5 ∨ eff < 85 then 1
  else if hours > 0 ∧ (cppTruncInt hours).tmod 100 = 0 then 3
  else 0

/-- `updateMachinePhysics(MachineState&, double)` of
`enhanced_motor_engine.cpp` (lines 545-644).  Skips stopped machines,
then updates the fields in source order; each stage reads the values
written by earlier stages of the same call. -/
def updateMachinePhysics (env : Env) (machine : MachineState) (elapsedSeconds : ℚ) :
    MachineState :=
  if machine.isRunning then
    let operatingHours := machine.operatingHours + elapsedSeconds / 3600
    let speedFactor := machine.currentSpeed / 2500
    let loadFactor := machine.load
    let tempFactor := (machine.temperature - 65) / 30
    let bearingWear := machine.bearingWear +
      (speedFactor * loadFactor * (1 + tempFactor * 0.5)) * (elapsedSeconds / 3600) * 0.0008
    let oilTempFactor := (machine.temperature - 65) / 20
    let oilDegradation := machine.oilDegradation +
      (1 + oilTempFactor * 0.3) * (elapsedSeconds / 3600) * 0.00015
    let heatGeneration := machine.load * 15 + (machine.currentSpeed / 2500) * 8
    let coolingRate := 0.8 + (machine.currentSpeed / 2500) * 0.4
    let ambientTemp := 22 + env.seasonalFactor * 5
    let tempChange := (heatGeneration - coolingRate * (machine.temperature - ambientTemp)) *
      (elapsedSeconds / 60)
    let temperature := cppClamp ambientTemp 120 (machine.temperature + tempChange)
    let wearLoss := bearingWear * 120
    let oilLoss := oilDegradation * 80
    let tempLoss := max 0 ((temperature - 75) * 0.2)
    let loadLoss := |machine.load - 0.8| * 5
    let efficiency := cppClamp 70 96 (95 - wearLoss - oilLoss - tempLoss - loadLoss)
    let speedHarmonic := env.sinq (machine.currentSpeed * 0.01) * 0.3
    let loadHarmonic := env.sinq (machine.load * 10) * 0.2
    let wearHarmonic := bearingWear * 15
    let resonanceEffect := env.sinq (operatingHours * 0.5) * 0.1
    let vibration := cppClamp 0.5 8
      (1 + speedHarmonic + loadHarmonic + wearHarmonic + resonanceEffect)
    let loadResponse := (machine.load - 0.7) * 300
    let tempResponse := (temperature - 65) * 1.5
    let efficiencyResponse := (efficiency - 90) * 2
    let speedChange := (machine.targetSpeed + loadResponse - tempResponse -
      efficiencyResponse - machine.currentSpeed) * 0.1
    let currentSpeed := cppClamp (machine.targetSpeed * 0.7) (machine.targetSpeed * 1.3)
      (machine.currentSpeed + speedChange * (elapsedSeconds / 60))
    let productionCycle := env.sinq (operatingHours * 0.05) * 0.15
    let demandVariation := env.sinq (operatingHours * 0.2) * 0.1
    let efficiencyVariation := (efficiency - 90) * 0.01
    let seasonalVariation := env.seasonalFactor * 0.05
    let load := cppClamp 0.2 1
      (0.75 + productionCycle + demandVariation + efficiencyVariation + seasonalVariation)
    let loadPower := load * 1.8
    let efficiencyPower := (100 - efficiency) * 0.15
    let tempPower := (temperature - 65) * 0.05
    let wearPower := bearingWear * 50
    let powerConsumption := cppClamp 2 15
      (4.5 + loadPower + efficiencyPower + tempPower + wearPower)
    let wearImpact := bearingWear * 250
    let oilImpact := oilDegradation * 150
    let tempImpact := max 0 ((temperature - 75) * 0.8)
    let vibrationImpact := (vibration - 1) * 12
    let efficiencyImpact := (100 - efficiency) * 0.8
    let operatingHoursImpact := operatingHours * 0.01
    let healthScore := cppClamp 0 100 (100 - wearImpact - oilImpact - tempImpact -
      vibrationImpact - efficiencyImpact - operatingHoursImpact)
    { machine with
      operatingHours := operatingHours
      bearingWear := bearingWear
      oilDegradation := oilDegradation
      temperature := temperature
      efficiency := efficiency
      vibration := vibration
      currentSpeed := currentSpeed
      load := load
      powerConsumption := powerConsumption
      healthScore := healthScore
      maintenanceStatus :=
        maintStatusOf bearingWear oilDegradation temperature vibration efficiency operatingHours }
  else machine

/-- The generic edge-node loop body (`i = 1..5`). -/
def mkEdgeNode (t0 : ℕ) (i : ℕ) : EdgeNode :=
  { id := "EDGE-" ++ toString (100 + i), name := "Edge Node " ++ toString i
    location := "Building " ++ toString i ++ ", Floor " ++ toString (i % 2 + 1)
    cpuUsage := 35 + i * 8, memoryUsage := 55 + i * 6
    networkLatency := 12 + i * 3, processingTime := 45 + i * 12
    storageUsed := 6.8 + i * 2.2, bandwidthUsage := 60 + i * 8
    isOnline := true, connectedMachines := 3 + i, lastSync := t0 }

/-- The four specialized edge-node literals. -/
def dataNode (t0 : ℕ) : EdgeNode :=
  { id := "EDGE-DATA-001", name := "Data Processing Edge Node"
    location := "Building 1, Floor 2"
    cpuUsage := 78, memoryUsage := 85, networkLatency := 8, processingTime := 25
    storageUsed := 45.2, bandwidthUsage := 90
    isOnline := true, connectedMachines := 8, lastSync := t0 }

def aiNode (t0 : ℕ) : EdgeNode :=
  { id := "EDGE-AI-001", name := "AI/ML Processing Edge Node"
    location := "Building 2, Floor 2"
    cpuUsage := 92, memoryUsage := 95, networkLatency := 5, processingTime := 15
    storageUsed := 62.8, bandwidthUsage := 85
    isOnline := true, connectedMachines := 12, lastSync := t0 }

def securityNode (t0 : ℕ) : EdgeNode :=
  { id := "EDGE-SEC-001", name := "Security Edge Node"
    location := "Building 3, Floor 1"
    cpuUsage := 45, memoryUsage := 70, networkLatency := 3, processingTime := 8
    storageUsed := 28.5, bandwidthUsage := 40
    isOnline := true, connectedMachines := 15, lastSync := t0 }

def backupNode (t0 : ℕ) : EdgeNode :=
  { id := "EDGE-BACKUP-001", name := "Backup Edge Node"
    location := "Building 4, Floor 1"
    cpuUsage := 0, memoryUsage := 0, networkLatency := 0, processingTime := 0
    storageUsed := 0, bandwidthUsage := 0
    isOnline := false, connectedMachines := 0, lastSync := t0 }

/-- The edge-node part of `initializeIndustrialSystem`. -/
def initEdgeNodes (t0 : ℕ) : List EdgeNode :=
  [mkEdgeNode t0 1, mkEdgeNode t0 2, mkEdgeNode t0 3, mkEdgeNode t0 4, mkEdgeNode t0 5,
   dataNode t0, aiNode t0, securityNode t0, backupNode t0]

instance : Inhabited EdgeNode := ⟨backupNode 0⟩

/-- The six ML-model literals of `initializeIndustrialSystem`. -/
def initMLModels (t0 : ℕ) : List MLModel :=
  [{ modelId := "ML-001", modelName := "Predictive Maintenance Model"
     accuracy := 96.8, confidence := 0.92, failureProbability := 1.8
     remainingUsefulLife := 185, featureWeights := [0.35, 0.28, 0.22, 0.10, 0.05]
     lastTraining := t0, predictionCount := 0 },
   { modelId := "ML-002", modelName := "Anomaly Detection Model"
     accuracy := 94.5, confidence := 0.88, failureProbability := 0
     remainingUsefulLife := 0, featureWeights := [0.40, 0.30, 0.20, 0.10]
     lastTraining := t0, predictionCount := 0 },
   { modelId := "ML-003", modelName := "Energy Optimization Model"
     accuracy := 91.2, confidence := 0.85, failureProbability := 0
     remainingUsefulLife := 0, featureWeights := [0.45, 0.25, 0.20, 0.10]
     lastTraining := t0, predictionCount := 0 },
   { modelId := "ML-004", modelName := "Quality Control Model"
     accuracy := 93.7, confidence := 0.90, failureProbability := 0
     remainingUsefulLife := 0, featureWeights := [0.30, 0.35, 0.25, 0.10]
     lastTraining := t0, predictionCount := 0 },
   { modelId := "ML-005", modelName := "Performance Prediction Model"
     accuracy := 89.4, confidence := 0.82, failureProbability := 0
     remainingUsefulLife := 0, featureWeights := [0.25, 0.30, 0.25, 0.20]
     lastTraining := t0, predictionCount := 0 },
   { modelId := "ML-006", modelName := "Fault Diagnosis Model"
     accuracy := 95.1, confidence := 0.91, failureProbability := 0
     remainingUsefulLife := 0, featureWeights := [0.35, 0.25, 0.20, 0.15, 0.05]
     lastTraining := t0, predictionCount := 0 }]

instance : Inhabited MLModel := ⟨(initMLModels 0).head (by simp [initMLModels])⟩

/-- Process-wide state of `enhanced_motor_engine.cpp`: the lazy registry
plus the modelled pseudo-random streams (`rng` for `gen()` / `rand()`
integer draws, `rq` for `uniform_real_distribution` unit samples). -/
structure EngineState where
  initialized : Bool
  machines : List MachineState
  nodes : List EdgeNode
  models : List MLModel
  rng : List ℕ
  rq : List ℚ

/-- `initializeIndustrialSystem()`: populates the registry exactly once. -/
def initializeIndustrialSystem (env : Env) (st : EngineState) : EngineState :=
  if st.initialized then st
  else { st with
         initialized := true
         machines := initMachines env.workingHours env.now
         nodes := initEdgeNodes env.now
         models := initMLModels env.now }

/-- Pop one integer draw (`gen()` / `rand()`) from the modelled stream. -/
def nextNat (st : EngineState) : ℕ × EngineState :=
  (st.rng.headD 0, { st with rng := st.rng.tail })

/-- `random_double(min, max)`: one uniform draw in `[lo, hi]`, modelled as
an affine image of a unit-interval sample from the `rq` stream. -/
def randomDouble (lo hi : ℚ) (st : EngineState) : ℚ × EngineState :=
  (lo + (hi - lo) * st.rq.headD 0, { st with rq := st.rq.tail })

/-- `updateEdgeNodePerformance(EdgeNode&, double)` (lines 647-665);
offline nodes are frozen.  The four `rand()` calls consume integer
draws in source order. -/
def updateEdgeNodePerformance (env : Env) (node : EdgeNode) (elapsedSeconds : ℚ)
    (rng : List ℕ) : EdgeNode × List ℕ :=
  if node.isOnline then
    let r0 := rng.headD 0
    let r1 := rng.tail.headD 0
    let r2 := rng.tail.tail.headD 0
    let r3 := rng.tail.tail.tail.headD 0
    let baseCpu := 45 + env.sinq (elapsedSeconds * 0.1) * 10
    let cpuUsage := cppClamp 20 90 (baseCpu + ((r0 % 20 : ℤ) - 10 : ℤ))
    let baseMemory := 60 + env.cosq (elapsedSeconds * 0.05) * 15
    let memoryUsage := cppClamp 30 95 (baseMemory + ((r1 % 15 : ℤ) - 7 : ℤ))
    let baseLatency := 15 + env.sinq (elapsedSeconds * 0.2) * 5
    let networkLatency := cppClamp 5 50 (baseLatency + ((r2 % 10 : ℤ) - 5 : ℤ))
    let baseProcessing := 50 + env.cosq (elapsedSeconds * 0.15) * 20
    let processingTime := cppClamp 20 150 (baseProcessing + ((r3 % 30 : ℤ) - 15 : ℤ))
    ({ node with
       cpuUsage := cpuUsage, memoryUsage := memoryUsage
       networkLatency := networkLatency, processingTime := processingTime
       lastSync := env.now }, rng.tail.tail.tail.tail)
  else (node, rng)

/-- `updateMLModelPredictions(MLModel&, double)` (lines 668-692); the
failure probability is derived from the fleet-average health score. -/
def updateMLModelPredictions (machines : List MachineState) (model : MLModel)
    (elapsedSeconds : ℚ) (rng : List ℕ) : MLModel × List ℕ :=
  let r0 := rng.headD 0
  let r1 := rng.tail.headD 0
  let accuracy := cppClamp 85 98 (model.accuracy + ((r0 % 20 : ℤ) - 10 : ℤ) * 0.01)
  let confidence := cppClamp 0.7 0.95 (model.confidence + ((r1 % 10 : ℤ) - 5 : ℤ) * 0.01)
  let avgHealth := (machines.map MachineState.healthScore).sum / machines.length
  let failureProbability := cppClamp 0 15 ((100 - avgHealth) * 0.2)
  let remainingUsefulLife := max 30 (model.remainingUsefulLife - elapsedSeconds / 3600)
  ({ model with
     predictionCount := model.predictionCount + 1
     accuracy := accuracy, confidence := confidence
     failureProbability := failureProbability
     remainingUsefulLife := remainingUsefulLife }, rng.tail.tail)

/-- Whether an `int` index is in range for a list, as tested by the
accessors (`index >= 0 && index < vec.size()`). -/
def inRange {α : Type} (index : ℤ) (l : List α) : Prop :=
  0 ≤ index ∧ index < l.length

instance {α : Type} (index : ℤ) (l : List α) : Decidable (inRange index l) :=
  inferInstanceAs (Decidable (_ ∧ _))

/-- `GetIndustrialMachineCount()`. -/
def GetIndustrialMachineCount (env : Env) (st : EngineState) : ℤ × EngineState :=
  let st1 := initializeIndustrialSystem env st
  (st1.machines.length, st1)

/-- `GetMachineId(int)`: sentinel `"UNKNOWN"` out of range. -/
def GetMachineId (env : Env) (index : ℤ) (st : EngineState) : String × EngineState :=
  let st1 := initializeIndustrialSystem env st
  if inRange index st1.machines then
    ((st1.machines.getD index.toNat default).id, st1)
  else ("UNKNOWN", st1)

/-- `GetMachineName(int)`: sentinel `"Unknown Machine"` out of range. -/
def GetMachineName (env : Env) (index : ℤ) (st : EngineState) : String × EngineState :=
  let st1 := initializeIndustrialSystem env st
  if inRange index st1.machines then
    ((st1.machines.getD index.toNat default).name, st1)
  else ("Unknown Machine", st1)

/-- `GetMachineType(int)`: sentinel `0` out of range. -/
def GetMachineType (env : Env) (index : ℤ) (st : EngineState) : ℤ × EngineState :=
  let st1 := initializeIndustrialSystem env st
  if inRange index st1.machines then
    ((st1.machines.getD index.toNat default).type.toCode, st1)
  else (0, st1)

/-- `GetMachineRunning(int)`: sentinel `false` out of range. -/
def GetMachineRunning (env : Env) (index : ℤ) (st : EngineState) : Bool × EngineState :=
  let st1 := initializeIndustrialSystem env st
  if inRange index st1.machines then
    ((st1.machines.getD index.toNat default).isRunning, st1)
  else (false, st1)

/-- Shared shape of the numeric machine accessors: run
`updateMachinePhysics(machine, 1.0)` in place, then return the selected
field plus an independent `random_double` noise term; sentinel `0.0` out
of range. -/
def machineFieldAccessor (env : Env) (field : MachineState → ℚ) (lo hi : ℚ)
    (index : ℤ) (st : EngineState) : ℚ × EngineState :=
  let st1 := initializeIndustrialSystem env st
  if inRange index st1.machines then
    let machine := st1.machines.getD index.toNat default
    let m' := updateMachinePhysics env machine 1
    let st2 := { st1 with machines := st1.machines.set index.toNat m' }
    let (noise, st3) := randomDouble lo hi st2
    (field m' + noise, st3)
  else (0, st1)

/-- `GetMachineSpeed(int)` (noise `±1.0`). -/
def GetMachineSpeed (env : Env) (index : ℤ) (st : EngineState) : ℚ × EngineState :=
  machineFieldAccessor env MachineState.currentSpeed (-1) 1 index st

/-- `GetMachineTemperature(int)` (noise `±0.5`). -/
def GetMachineTemperature (env : Env) (index : ℤ) (st : EngineState) : ℚ × EngineState :=
  machineFieldAccessor env MachineState.temperature (-0.5) 0.5 index st

/-- `GetMachineLoad(int)` (noise `±0.05`). -/
def GetMachineLoad (env : Env) (index : ℤ) (st : EngineState) : ℚ × EngineState :=
  machineFieldAccessor env MachineState.load (-0.05) 0.05 index st

/-- `GetMachineEfficiency(int)` (noise `±0.5`). -/
def GetMachineEfficiency (env : Env) (index : ℤ) (st : EngineState) : ℚ × EngineState :=
  machineFieldAccessor env MachineState.efficiency (-0.5) 0.5 index st

/-- `GetMachinePowerConsumption(int)` (noise `±0.2`). -/
def GetMachinePowerConsumption (env : Env) (index : ℤ) (st : EngineState) :
    ℚ × EngineState :=
  machineFieldAccessor env MachineState.powerConsumption (-0.2) 0.2 index st

/-- `GetMachineVibration(int)` (noise `±0.1`). -/
def GetMachineVibration (env : Env) (index : ℤ) (st : EngineState) : ℚ × EngineState :=
  machineFieldAccessor env MachineState.vibration (-0.1) 0.1 index st

/-- `GetMachineHealthScore(int)` (noise `±1.0`). -/
def GetMachineHealthScore (env : Env) (index : ℤ) (st : EngineState) : ℚ × EngineState :=
  machineFieldAccessor env MachineState.healthScore (-1) 1 index st

/-- `GetMachineMaintenanceStatus(int)`: updates physics, then returns the
status unmodified (no noise); sentinel `0` out of range. -/
def GetMachineMaintenanceStatus (env : Env) (index : ℤ) (st : EngineState) :
    ℤ × EngineState :=
  let st1 := initializeIndustrialSystem env st
  if inRange index st1.machines then
    let machine := st1.machines.getD index.toNat default
    let m' := updateMachinePhysics env machine 1
    let st2 := { st1 with machines := st1.machines.set index.toNat m' }
    (m'.maintenanceStatus, st2)
  else (0, st1)

/-- `GetEdgeNodeCount()`. -/
def GetEdgeNodeCount (env : Env) (st : EngineState) : ℤ × EngineState :=
  let st1 := initializeIndustrialSystem env st
  (st1.nodes.length, st1)

/-- `GetEdgeNodeId(int)`: sentinel `"UNKNOWN"` out of range. -/
def GetEdgeNodeId (env : Env) (index : ℤ) (st : EngineState) : String × EngineState :=
  let st1 := initializeIndustrialSystem env st
  if inRange index st1.nodes then
    ((st1.nodes.getD index.toNat default).id, st1)
  else ("UNKNOWN", st1)

/-- `GetEdgeNodeName(int)`: sentinel `"Unknown Node"` out of range. -/
def GetEdgeNodeName (env : Env) (index : ℤ) (st : EngineState) : String × EngineState :=
  let st1 := initializeIndustrialSystem env st
  if inRange index st1.nodes then
    ((st1.nodes.getD index.toNat default).name, st1)
  else ("Unknown Node", st1)

/-- Shared shape of the numeric edge-node accessors. -/
def edgeFieldAccessor (env : Env) (field : EdgeNode → ℚ) (lo hi : ℚ)
    (index : ℤ) (st : EngineState) : ℚ × EngineState :=
  let st1 := initializeIndustrialSystem env st
  if inRange index st1.nodes then
    let node := st1.nodes.getD index.toNat default
    let (n', rng') := updateEdgeNodePerformance env node 1 st1.rng
    let st2 := { st1 with nodes := st1.nodes.set index.toNat n', rng := rng' }
    let (noise, st3) := randomDouble lo hi st2
    (field n' + noise, st3)
  else (0, st1)

/-- `GetEdgeNodeCpuUsage(int)` (noise `±2.0`). -/
def GetEdgeNodeCpuUsage (env : Env) (index : ℤ) (st : EngineState) : ℚ × EngineState :=
  edgeFieldAccessor env EdgeNode.cpuUsage (-2) 2 index st

/-- `GetEdgeNodeMemoryUsage(int)` (noise `±2.0`). -/
def GetEdgeNodeMemoryUsage (env : Env) (index : ℤ) (st : EngineState) : ℚ × EngineState :=
  edgeFieldAccessor env EdgeNode.memoryUsage (-2) 2 index st

/-- `GetEdgeNodeNetworkLatency(int)` (noise `±1.0`). -/
def GetEdgeNodeNetworkLatency (env : Env) (index : ℤ) (st : EngineState) :
    ℚ × EngineState :=
  edgeFieldAccessor env EdgeNode.networkLatency (-1) 1 index st

/-- `GetEdgeNodeProcessingTime(int)` (noise `±5.0`). -/
def GetEdgeNodeProcessingTime (env : Env) (index : ℤ) (st : EngineState) :
    ℚ × EngineState :=
  edgeFieldAccessor env EdgeNode.processingTime (-5) 5 index st

/-- `GetMLModelCount()`. -/
def GetMLModelCount (env : Env) (st : EngineState) : ℤ × EngineState :=
  let st1 := initializeIndustrialSystem env st
  (st1.models.length, st1)

/-- `GetMLModelId(int)`: sentinel `"UNKNOWN"` out of range. -/
def GetMLModelId (env : Env) (index : ℤ) (st : EngineState) : String × EngineState :=
  let st1 := initializeIndustrialSystem env st
  if inRange index st1.models then
    ((st1.models.getD index.toNat default).modelId, st1)
  else ("UNKNOWN", st1)

/-- `GetMLModelName(int)`: sentinel `"Unknown Model"` out of range. -/
def GetMLModelName (env : Env) (index : ℤ) (st : EngineState) : String × EngineState :=
  let st1 := initializeIndustrialSystem env st
  if inRange index st1.models then
    ((st1.models.getD index.toNat default).modelName, st1)
  else ("Unknown Model", st1)

/-- Shared shape of the numeric ML-model accessors. -/
def mlFieldAccessor (env : Env) (field : MLModel → ℚ) (lo hi : ℚ)
    (index : ℤ) (st : EngineState) : ℚ × EngineState :=
  let st1 := initializeIndustrialSystem env st
  if inRange index st1.models then
    let model := st1.models.getD index.toNat default
    let (m', rng') := updateMLModelPredictions st1.machines model 1 st1.rng
    let st2 := { st1 with models := st1.models.set index.toNat m', rng := rng' }
    let (noise, st3) := randomDouble lo hi st2
    (field m' + noise, st3)
  else (0, st1)

/-- `GetMLModelAccuracy(int)` (noise `±0.5`). -/
def GetMLModelAccuracy (env : Env) (index : ℤ) (st : EngineState) : ℚ × EngineState :=
  mlFieldAccessor env MLModel.accuracy (-0.5) 0.5 index st

/-- `GetMLModelConfidence(int)` (noise `±0.02`). -/
def GetMLModelConfidence (env : Env) (index : ℤ) (st : EngineState) : ℚ × EngineState :=
  mlFieldAccessor env MLModel.confidence (-0.02) 0.02 index st

/-- `GetMLModelFailureProbability(int)` (noise `±0.1`). -/
def GetMLModelFailureProbability (env : Env) (index : ℤ) (st : EngineState) :
    ℚ × EngineState :=
  mlFieldAccessor env MLModel.failureProbability (-0.1) 0.1 index st

/-- `GetMLModelRemainingUsefulLife(int)` (noise `±1.0`). -/
def GetMLModelRemainingUsefulLife (env : Env) (index : ℤ) (st : EngineState) :
    ℚ × EngineState :=
  mlFieldAccessor env MLModel.remainingUsefulLife (-1) 1 index st

/-- `StartMachine(int)`: sets the run flag; no-op out of range. -/
def StartMachine (env : Env) (index : ℤ) (st : EngineState) : EngineState :=
  let st1 := initializeIndustrialSystem env st
  if inRange index st1.machines then
    let m' := { st1.machines.getD index.toNat default with isRunning := true }
    { st1 with machines := st1.machines.set index.toNat m' }
  else st1

/-- `StopMachine(int)`: clears the run flag; no-op out of range. -/
def StopMachine (env : Env) (index : ℤ) (st : EngineState) : EngineState :=
  let st1 := initializeIndustrialSystem env st
  if inRange index st1.machines then
    let m' := { st1.machines.getD index.toNat default with isRunning := false }
    { st1 with machines := st1.machines.set index.toNat m' }
  else st1

/-- `SetMachineTargetSpeed(int, double)`: no-op out of range. -/
def SetMachineTargetSpeed (env : Env) (index : ℤ) (speed : ℚ) (st : EngineState) :
    EngineState :=
  let st1 := initializeIndustrialSystem env st
  if inRange index st1.machines then
    let m' := { st1.machines.getD index.toNat default with targetSpeed := speed }
    { st1 with machines := st1.machines.set index.toNat m' }
  else st1

/-- Legacy `GetOperatingHours()` of `enhanced_motor_engine.cpp`
(line 1147): hard-coded `return 0;`. -/
def GetOperatingHours (st : EngineState) : ℤ × EngineState := (0, st)

/-- Legacy `GetOperatingMinutes()` (line 1151): hard-coded `return 0;`. -/
def GetOperatingMinutes (st : EngineState) : ℤ × EngineState := (0, st)

/-- Legacy `GetOperatingSeconds()` (line 1155): hard-coded `return 0.0;`. -/
def GetOperatingSeconds (st : EngineState) : ℚ × EngineState := (0, st)

/-- Per-machine body of `ResetMotorState()` (lines 1178-1184): zeroes the
wear counters and writes the fixed values `healthScore = 95.0`,
`maintenanceStatus = 0`. -/
def resetMachine (machine : MachineState) : MachineState :=
  { machine with
    bearingWear := 0, oilDegradation := 0, operatingHours := 0
    healthScore := 95, maintenanceStatus := 0 }

/-- `ResetMotorState()` of `enhanced_motor_engine.cpp` (lines 1175-1185):
applies `resetMachine` to every machine in the registry. -/
def ResetMotorState (env : Env) (st : EngineState) : EngineState :=
  let st1 := initializeIndustrialSystem env st
  { st1 with machines := st1.machines.map resetMachine }

end Enhanced

namespace Legacy

/-- `struct MotorState` of `motor_engine.cpp` (the single aggregate
motor), with every sensor and daily-life field. -/
structure Motor where
  speed : ℚ
  temperature : ℚ
  efficiency : ℚ
  powerConsumption : ℚ
  vibration : ℚ
  load : ℚ
  bearingWear : ℚ
  oilDegradation : ℚ
  operatingHours : ℚ
  vibrationX : ℚ
  vibrationY : ℚ
  vibrationZ : ℚ
  oilPressure : ℚ
  airPressure : ℚ
  hydraulicPressure : ℚ
  coolantFlowRate : ℚ
  fuelFlowRate : ℚ
  voltage : ℚ
  current : ℚ
  powerFactor : ℚ
  rpm : ℚ
  torque : ℚ
  humidity : ℚ
  ambientTemperature : ℚ
  ambientPressure : ℚ
  shaftPosition : ℚ
  displacement : ℚ
  strainGauge1 : ℚ
  strainGauge2 : ℚ
  strainGauge3 : ℚ
  soundLevel : ℚ
  bearingHealth : ℚ
  maintenanceStatus : ℤ
  systemHealth : ℤ
  hvacEfficiency : ℚ
  energySavings : ℚ
  comfortLevel : ℚ
  airQuality : ℚ
  fuelEfficiency : ℚ
  engineHealth : ℚ
  batteryLevel : ℚ
  tirePressure : ℚ
  boatEngineEfficiency : ℚ
  bladeSharpness : ℚ
  fuelLevel : ℚ
  generatorPowerOutput : ℚ
  generatorFuelEfficiency : ℚ
  poolPumpFlowRate : ℚ
  poolPumpEnergyUsage : ℚ
  washingMachineEfficiency : ℚ
  dishwasherEfficiency : ℚ
  refrigeratorEfficiency : ℚ
  airConditionerEfficiency : ℚ
  machineCount : ℤ
  isRunning : Bool
  smartDevices : ℤ
  boatEngineHours : ℤ

/-- Process-wide state of `motor_engine.cpp`: the motor, the two global
flags, and the modelled `gen()` draw stream. -/
structure LState where
  motor : Motor
  initialized : Bool
  physicsUpdatedThisReading : Bool
  rng : List ℕ

/-- Ambient environment of the legacy engine: the `<cmath>` functions
and the elapsed session time in hours used by
`CalculateOperatingHours`. -/
structure LEnv where
  sinq : ℚ → ℚ
  sqrtq : ℚ → ℚ
  sessionHours : ℚ

/-- Pop one `gen()` draw from the modelled stream. -/
def nextRand (st : LState) : ℕ × LState :=
  (st.rng.headD 0, { st with rng := st.rng.tail })

/-- The motor values written by `InitializeMotor()` (lines 104-138). -/
def initialMotor : Motor :=
  { speed := 2500, temperature := 65, efficiency := 92, powerConsumption := 4.5
    vibration := 1.5, load := 0.7, bearingWear := 0.02, oilDegradation := 0.01
    operatingHours := 280
    vibrationX := 1, vibrationY := 1.2, vibrationZ := 0.8
    oilPressure := 3.5, airPressure := 8, hydraulicPressure := 150
    coolantFlowRate := 20, fuelFlowRate := 12
    voltage := 230, current := 20, powerFactor := 0.92
    rpm := 2500, torque := 50
    humidity := 45, ambientTemperature := 22, ambientPressure := 101.325
    shaftPosition := 0, displacement := 0.1
    strainGauge1 := 100, strainGauge2 := 150, strainGauge3 := 200
    soundLevel := 70, bearingHealth := 95
    maintenanceStatus := 0, systemHealth := 90
    hvacEfficiency := 85, energySavings := 75, comfortLevel := 90, airQuality := 95
    fuelEfficiency := 88, engineHealth := 92, batteryLevel := 95, tirePressure := 98
    boatEngineEfficiency := 82, bladeSharpness := 95, fuelLevel := 85
    generatorPowerOutput := 3.2, generatorFuelEfficiency := 85
    poolPumpFlowRate := 15, poolPumpEnergyUsage := 2.8
    washingMachineEfficiency := 90, dishwasherEfficiency := 88
    refrigeratorEfficiency := 92, airConditionerEfficiency := 80
    machineCount := 17, isRunning := true, smartDevices := 12, boatEngineHours := 224 }

/-- `InitializeMotor()` (lines 101-142): returns immediately once the
`initialized` flag is set. -/
def InitializeMotor (st : LState) : LState :=
  if st.initialized then st
  else { st with motor := initialMotor, initialized := true }

/-- The 8 operating scenarios of `CalculateSpeed` (lines 155-172):
`(baseSpeed, operatingLoad, ambientTemp, timeOfDay, seasonalFactor)`. -/
def speedScenario (n : ℕ) : ℚ × ℚ × ℚ × ℚ × ℚ :=
  match n with
  | 0 => (2400, 0.85, 25, 14, 1.0)
  | 1 => (2600, 0.65, 35, 10, 1.1)
  | 2 => (2500, 0.75, 20, 2, 0.95)
  | 3 => (2200, 0.45, 30, 8, 1.05)
  | 4 => (2800, 0.90, 40, 16, 0.9)
  | 5 => (2300, 0.55, 15, 22, 1.15)
  | 6 => (2550, 0.70, 45, 6, 0.85)
  | _ => (2700, 0.80, 50, 18, 1.2)

/-- `CalculateSpeed()` (lines 146-201): scenario sampling, physics terms,
clamp to `[2000, 3000]`, anti-clustering bias near either end, then
stores `speed`, `rpm` and the scenario load. -/
def CalculateSpeed (env : LEnv) (st : LState) : ℚ × LState :=
  let st1 := InitializeMotor st
  let (n0, s2) := nextRand st1
  let (baseSpeed, operatingLoad, ambientTemp, timeOfDay, seasonalF) := speedScenario (n0 % 8)
  let loadEffect := (operatingLoad - 0.5) * 200
  let ambientEffect := (ambientTemp - 30) * 1
  let timeEffect := env.sinq (timeOfDay * 0.26) * 100
  let seasonalEffect := (seasonalF - 1) * 150
  let wearEffect := s2.motor.bearingWear * 50
  let maintenanceEffect := s2.motor.oilDegradation * 30
  let (n1, s3) := nextRand s2
  let randomVariation : ℚ := usub64 (n1 % 400) 200
  let newSpeed := cppClamp 2000 3000 (baseSpeed + loadEffect + ambientEffect +
    timeEffect + seasonalEffect - wearEffect - maintenanceEffect + randomVariation)
  let finish := fun (v : ℚ) (s : LState) =>
    (v, { s with motor := { s.motor with speed := v, rpm := v, load := operatingLoad } })
  if newSpeed > 2950 then
    let (n2, s4) := nextRand s3
    finish (2950 + (n2 % 50 : ℕ)) s4
  else if newSpeed < 2050 then
    let (n2, s4) := nextRand s3
    finish (2050 + (n2 % 50 : ℕ)) s4
  else finish newSpeed s3

/-- The 6 thermal scenarios of `CalculateTemperature` (lines 217-230):
`(baseTemp, ambientTemp, coolingEfficiency, thermalMass)`. -/
def thermalScenario (n : ℕ) : ℚ × ℚ × ℚ × ℚ :=
  match n with
  | 0 => (35, 20, 0.8, 1.0)
  | 1 => (30, 15, 0.9, 1.2)
  | 2 => (40, 25, 0.7, 0.8)
  | 3 => (45, 30, 0.6, 1.5)
  | 4 => (50, 25, 0.75, 1.3)
  | _ => (55, 35, 0.65, 0.9)

/-- `CalculateTemperature()` (lines 205-269): thermal-scenario physics
clamped to `[45, 95]`, then overridden by the stratified resample
(70% into `[60,80)`, 20% into `[80,90)`, 10% into `[90,95)`); stores
`temperature` and `ambientTemperature`.  Note the physics value is
discarded: only the scenario's ambient temperature survives it. -/
def CalculateTemperature (st : LState) : ℚ × LState :=
  let st1 := InitializeMotor st
  let operatingLoad := st1.motor.load
  let operatingSpeed := st1.motor.speed
  let (n0, s2) := nextRand st1
  let (baseTemp, ambientTemp, coolingEfficiency, thermalMass) := thermalScenario (n0 % 6)
  let speedHeat := (operatingSpeed / 2500 - 1) * 1
  let loadHeat := (operatingLoad - 0.5) * 1.5
  let ambientHeat := (ambientTemp - 30) * 0.1
  let wearHeat := s2.motor.bearingWear * 2
  let oilHeat := s2.motor.oilDegradation * 1
  let (n1, s3) := nextRand s2
  let randomHeatCelsius := (usub64 (n1 % 1000) 500 : ℚ) / 20
  let (n2, s4) := nextRand s3
  let scenarioTempVariation := (n2 % 200 : ℕ) / (10 : ℚ)
  let physTemp := baseTemp + speedHeat + loadHeat + ambientHeat + wearHeat + oilHeat +
    randomHeatCelsius + scenarioTempVariation
  let physTemp1 := physTemp / (1 + coolingEfficiency * 0.8)
  let physTemp2 := physTemp1 / (thermalMass * 2)
  let _clamped := cppClamp 45 95 physTemp2
  let (n3, s5) := nextRand s4
  let tempDistribution := n3 % 100
  let (n4, s6) := nextRand s5
  let newTemp : ℚ :=
    if tempDistribution < 70 then 60 + (n4 % 200 : ℕ) / (10 : ℚ)
    else if tempDistribution < 90 then 80 + (n4 % 100 : ℕ) / (10 : ℚ)
    else 90 + (n4 % 50 : ℕ) / (10 : ℚ)
  (newTemp,
   { s6 with motor := { s6.motor with temperature := newTemp, ambientTemperature := ambientTemp } })

/-- The 5 efficiency scenarios of `CalculateEfficiency` (lines 286-297):
`(baseEfficiency, loadEfficiency, tempLoss, speedLoss)`. -/
def efficiencyScenario (n : ℕ) : ℚ × ℚ × ℚ × ℚ :=
  match n with
  | 0 => (85, 0, 0.05, 0.8)
  | 1 => (82, -1, 0.08, 1.2)
  | 2 => (79, -2, 0.12, 1.5)
  | 3 => (73, -3, 0.15, 2.0)
  | _ => (81, 0.5, 0.06, 0.6)

/-- `CalculateEfficiency()` (lines 273-350): scenario physics clamped to
`[70, 94]`, then overridden by the stratified resample (70% into
`[80,95)`, 20% into `[75,80)`, 10% into `[70,75)`); stores `efficiency`. -/
def CalculateEfficiency (st : LState) : ℚ × LState :=
  let st1 := InitializeMotor st
  let operatingLoad := st1.motor.load
  let operatingTemp := st1.motor.temperature
  let operatingSpeed := st1.motor.speed
  let (n0, s2) := nextRand st1
  let (baseEfficiency, loadEfficiency, tempLoss, speedLoss) := efficiencyScenario (n0 % 5)
  let loadEffect : ℚ :=
    if operatingLoad < 0.4 then -8
    else if operatingLoad < 0.6 then -4
    else if operatingLoad < 0.8 then 0
    else -3
  let tempEffect := (operatingTemp - 70) * tempLoss
  let speedEffect := (operatingSpeed / 2500 - 1) * speedLoss
  let ageLoss := s2.motor.operatingHours * 0.0005
  let bearingLoss := s2.motor.bearingWear * 8
  let oilLoss := s2.motor.oilDegradation * 4
  let (n1, s3) := nextRand s2
  let randomVariation := (usub64 (n1 % 600) 300 : ℚ) / 100
  let (n2, s4) := nextRand s3
  let scenarioEfficiencyVariation := (n2 % 200 : ℕ) / (100 : ℚ)
  let _clamped := cppClamp 70 94 (baseEfficiency + loadEfficiency + loadEffect -
    tempEffect - speedEffect - ageLoss - bearingLoss - oilLoss +
    randomVariation + scenarioEfficiencyVariation)
  let (n3, s5) := nextRand s4
  let effDistribution := n3 % 100
  let (n4, s6) := nextRand s5
  let newEfficiency : ℚ :=
    if effDistribution < 70 then 80 + (n4 % 1500 : ℕ) / (100 : ℚ)
    else if effDistribution < 90 then 75 + (n4 % 500 : ℕ) / (100 : ℚ)
    else 70 + (n4 % 500 : ℕ) / (100 : ℚ)
  (newEfficiency, { s6 with motor := { s6.motor with efficiency := newEfficiency } })

/-- `CalculatePowerConsumption()` (lines 354-373): closed-form power
model clamped to `[1, 15]`; stores `powerConsumption`. -/
def CalculatePowerConsumption (env : LEnv) (st : LState) : ℚ × LState :=
  let st1 := InitializeMotor st
  let m := st1.motor
  let speedPower := (m.speed / 2500 - 1) * 2
  let loadPower := (m.load - 0.5) * 1.5
  let efficiencyPower := (100 - m.efficiency) * 0.1
  let tempPower := (m.temperature - 65) * 0.05
  let timePower := env.sinq (m.operatingHours * 0.08) * 1
  let newPower := cppClamp 1 15 (4.5 + speedPower + loadPower + efficiencyPower +
    tempPower + timePower)
  (newPower, { st1 with motor := { m with powerConsumption := newPower } })

/-- The 6 vibration scenarios of `CalculateVibration` (lines 390-403):
`(baseVibration, speedFactor, loadFactor, tempFactor, bearingFactor)`. -/
def vibrationScenario (n : ℕ) : ℚ × ℚ × ℚ × ℚ × ℚ :=
  match n with
  | 0 => (0.5, 0.3, 0.4, 0.02, 0.5)
  | 1 => (1.0, 0.5, 0.6, 0.03, 1.0)
  | 2 => (2.0, 0.8, 0.8, 0.05, 2.0)
  | 3 => (1.2, 1.2, 0.4, 0.04, 1.2)
  | 4 => (0.8, 0.4, 1.0, 0.03, 0.8)
  | _ => (0.6, 0.3, 0.3, 0.08, 0.6)

/-- `CalculateVibration()` (lines 377-460): scenario physics clamped to
`[0.5, 7.0]`, overridden by the stratified resample, then redistributed
onto the three axes with independent perturbations, with the stored
scalar recomputed as the Euclidean norm of the axes. -/
def CalculateVibration (env : LEnv) (st : LState) : ℚ × LState :=
  let st1 := InitializeMotor st
  let operatingLoad := st1.motor.load
  let operatingTemp := st1.motor.temperature
  let operatingSpeed := st1.motor.speed
  let (n0, s2) := nextRand st1
  let (baseVibration, speedFactor, loadFactor, tempFactor, bearingFactor) :=
    vibrationScenario (n0 % 6)
  let speedVibration := (operatingSpeed / 2500) * (operatingSpeed / 2500) * speedFactor * 0.5
  let loadVibration := (operatingLoad - 0.5) * loadFactor * 0.5
  let tempVibration := (operatingTemp - 70) * tempFactor * 0.5
  let bearingVibration := s2.motor.bearingWear * bearingFactor * 0.5
  let (n1, s3) := nextRand s2
  let imbalanceFactor := 0.9 + (n1 % 20 : ℕ) / (100 : ℚ)
  let imbalanceVibration := (imbalanceFactor - 1) * 0.4
  let resonanceEffect : ℚ := if operatingSpeed > 2400 ∧ operatingSpeed < 2600 then 0.1 else 0
  let (n2, s4) := nextRand s3
  let randomVariation := (usub64 (n2 % 600) 300 : ℚ) / 100
  let (n3, s5) := nextRand s4
  let scenarioVariation := (n3 % 100 : ℕ) / (100 : ℚ)
  let _clamped := cppClamp 0.5 7 (baseVibration + speedVibration + loadVibration +
    tempVibration + bearingVibration + imbalanceVibration + resonanceEffect +
    randomVariation + scenarioVariation)
  let (n4, s6) := nextRand s5
  let vibDistribution := n4 % 100
  let (n5, s7) := nextRand s6
  let newVibration : ℚ :=
    if vibDistribution < 70 then 2 + (n5 % 250 : ℕ) / (100 : ℚ)
    else if vibDistribution < 90 then 4.5 + (n5 % 150 : ℕ) / (100 : ℚ)
    else 6 + (n5 % 100 : ℕ) / (100 : ℚ)
  let baseAxisVibration := newVibration / env.sqrtq 3
  let (a0, s8) := nextRand s7
  let vibrationX := baseAxisVibration * (0.9 + (a0 % 40 : ℕ) / (100 : ℚ))
  let (a1, s9) := nextRand s8
  let vibrationY := baseAxisVibration * (0.9 + (a1 % 40 : ℕ) / (100 : ℚ))
  let (a2, s10) := nextRand s9
  let vibrationZ := baseAxisVibration * (0.9 + (a2 % 40 : ℕ) / (100 : ℚ))
  let vibration := env.sqrtq (vibrationX * vibrationX + vibrationY * vibrationY +
    vibrationZ * vibrationZ)
  (vibration,
   { s10 with motor := { s10.motor with
       vibrationX := vibrationX, vibrationY := vibrationY, vibrationZ := vibrationZ
       vibration := vibration } })

/-- `CalculateLoad()` (lines 464-480): time-based load model clamped to
`[0.1, 1.0]`; stores `load`. -/
def CalculateLoad (env : LEnv) (st : LState) : ℚ × LState :=
  let st1 := InitializeMotor st
  let timeLoad := env.sinq (st1.motor.operatingHours * 0.06) * 0.2
  let (n0, s2) := nextRand st1
  let randomLoad := (usub64 (n0 % 200) 100 : ℚ) / 1000
  let newLoad := cppClamp 0.1 1 (0.7 + timeLoad + randomLoad)
  (newLoad, { s2 with motor := { s2.motor with load := newLoad } })

/-- `CalculateBearingWear()` (lines 484-503): additive wear increments
from time, load, temperature and speed, accumulated into `bearingWear`
with a `[0, 1]` clamp; also refreshes `bearingHealth`. -/
def CalculateBearingWear (st : LState) : ℚ × LState :=
  let st1 := InitializeMotor st
  let m := st1.motor
  let timeWear := m.operatingHours * 0.0001
  let loadWear := (m.load - 0.5) * 0.01
  let tempWear := (m.temperature - 65) * 0.0005
  let speedWear := (m.speed / 2500 - 1) * 0.005
  let newWear := cppClamp 0 1 (m.bearingWear + timeWear + loadWear + tempWear + speedWear)
  let newBearingHealth := cppClamp 0 100 (95 - newWear * 100)
  (newWear,
   { st1 with motor := { m with bearingWear := newWear, bearingHealth := newBearingHealth } })

/-- `CalculateOilDegradation()` (lines 507-523): additive degradation
increments from time, temperature and bearing contamination, accumulated
into `oilDegradation` with a `[0, 1]` clamp. -/
def CalculateOilDegradation (st : LState) : ℚ × LState :=
  let st1 := InitializeMotor st
  let m := st1.motor
  let timeDegradation := m.operatingHours * 0.00005
  let tempDegradation := (m.temperature - 65) * 0.0002
  let contaminationDegradation := m.bearingWear * 0.01
  let newDegradation := cppClamp 0 1 (m.oilDegradation + timeDegradation +
    tempDegradation + contaminationDegradation)
  (newDegradation, { st1 with motor := { m with oilDegradation := newDegradation } })

/-- `CalculateOperatingHours()` (lines 527-541): adds a tenth of the
elapsed session hours; also refreshes `boatEngineHours`. -/
def CalculateOperatingHours (env : LEnv) (st : LState) : ℚ × LState :=
  let st1 := InitializeMotor st
  let newHours := st1.motor.operatingHours + env.sessionHours * 0.1
  (newHours,
   { st1 with motor := { st1.motor with
       operatingHours := newHours
       boatEngineHours := cppTruncInt (newHours * 0.8) } })

/-- The non-cached branch of `UpdateMotorPhysics()` (lines 553-725): the
nine `Calculate*` passes in source order, the derived sensor updates, the
ISO-weighted system health, the maintenance status, the coalescing flag,
and the daily-life application metrics. -/
def runPhysicsPass (env : LEnv) (st : LState) : LState :=
  let s1 := (CalculateLoad env st).2
  let s2 := (CalculateSpeed env s1).2
  let s3 := (CalculateTemperature s2).2
  let s4 := (CalculateEfficiency s3).2
  let s5 := (CalculatePowerConsumption env s4).2
  let s6 := (CalculateVibration env s5).2
  let s7 := (CalculateBearingWear s6).2
  let s8 := (CalculateOilDegradation s7).2
  let s9 := (CalculateOperatingHours env s8).2
  let m := s9.motor
  let coolantFlowRate := 20 - m.temperature / 10
  let efficiencyHealth := m.efficiency * 0.40
  let vibrationHealth :=
    (if m.vibration < 2.8 then (100 : ℚ)
     else if m.vibration < 7.1 then 100 - (m.vibration - 2.8) * 8
     else 0) * 0.25
  let temperatureHealth :=
    (if m.temperature < 70 then (100 : ℚ)
     else if m.temperature < 85 then 100 - (m.temperature - 70) * 2
     else if m.temperature < 95 then 70 - (m.temperature - 85) * 4
     else 0) * 0.20
  let bearingComponent := (100 - m.bearingWear * 50) * 0.10
  let oilComponent := (100 - m.oilDegradation * 50) * 0.05
  let healthScore := cppClamp 0 100 (efficiencyHealth + vibrationHealth +
    temperatureHealth + bearingComponent + oilComponent)
  let systemHealth := cppTruncInt healthScore
  let maintenanceStatus : ℤ :=
    if m.efficiency < 75 ∨ m.vibration > 6 ∨ m.temperature > 90 then 2
    else if m.efficiency < 80 ∨ m.vibration > 4.5 ∨ m.temperature > 80 then 1
    else if m.operatingHours > 1000 then 3
    else 0
  { s9 with
    physicsUpdatedThisReading := true
    motor := { m with
      torque := 50 + (m.speed / 2500) * 20
      voltage := 230 + (m.speed / 2500) * 10
      current := 20 + (m.speed / 2500) * 15
      powerFactor := 0.92
      humidity := 45 + m.temperature / 100
      ambientPressure := 101.325 + m.temperature / 100
      shaftPosition := m.speed * 0.1
      displacement := m.vibration / 10
      strainGauge1 := 100 + (m.speed / 2500) * 50
      strainGauge2 := 150 + (m.speed / 2500) * 50
      strainGauge3 := 200 + (m.speed / 2500) * 50
      soundLevel := 70 + (m.speed / 2500) * 10
      oilPressure := 3 + (m.speed / 2500) * 1
      airPressure := 6 + (m.speed / 2500) * 5.5
      hydraulicPressure := 150 + (m.speed / 2500) * 50
      coolantFlowRate := coolantFlowRate
      fuelFlowRate := 12 + (m.speed / 2500) * 4
      systemHealth := systemHealth
      maintenanceStatus := maintenanceStatus
      hvacEfficiency := m.efficiency * (1 - (m.temperature - 22) * 0.002)
      energySavings := m.efficiency * 0.8
      comfortLevel := cppClamp 0 100 (100 - |m.temperature - 22| * 1.5 - m.vibration * 2)
      airQuality := cppClamp 0 100 (100 - m.vibration * 8 -
        (if m.temperature > 30 then (m.temperature - 30) * 0.5 else 0))
      fuelEfficiency := m.efficiency * 1.2 * (1 - (m.temperature - 22) * 0.001)
      engineHealth := m.efficiency * 0.9
      batteryLevel := max 0 (100 - (m.temperature - 30) * 2 -
        (if m.vibration > 2 then (m.vibration - 2) * 5 else 0))
      tirePressure := max 0 (100 - m.vibration * 15 -
        (if m.speed > 2000 then (m.speed - 2000) * 0.01 else 0))
      boatEngineEfficiency := cppClamp 0 100 (m.efficiency * (1 - (m.temperature - 25) * 0.002) -
        (if m.vibration > 2 then (m.vibration - 2) * 3 else 0))
      bladeSharpness := cppClamp 0 100 (100 - m.vibration * 20 -
        (if m.speed > 1500 then (m.speed - 1500) * 0.01 else 0))
      fuelLevel := cppClamp 0 100 (100 - (m.temperature - 40) * 3 -
        (if m.vibration > 1.5 then (m.vibration - 1.5) * 5 else 0))
      generatorPowerOutput := cppClamp 0 100
        (m.powerConsumption * 10 * (1 - (m.temperature - 30) * 0.001))
      generatorFuelEfficiency := cppClamp 0 100
        (m.efficiency * (1 - (if m.vibration > 2 then (m.vibration - 2) * 0.02 else 0)))
      poolPumpFlowRate := cppClamp 0 100
        (coolantFlowRate * 20 * (1 - (m.temperature - 25) * 0.001))
      poolPumpEnergyUsage := cppClamp 0 100
        (m.powerConsumption * 15 * (1 + (if m.vibration > 1 then (m.vibration - 1) * 0.05 else 0)))
      washingMachineEfficiency := cppClamp 0 100 (m.efficiency * (1 - m.vibration * 0.05))
      dishwasherEfficiency := cppClamp 0 100
        (m.efficiency * 0.9 + ((systemHealth : ℚ) - 80) * 0.3)
      refrigeratorEfficiency := cppClamp 0 100 (m.efficiency * 1.1 - (m.temperature - 4) * 0.8)
      airConditionerEfficiency := cppClamp 0 100
        (m.efficiency * (1 - (m.temperature - 22) * 0.005))
      smartDevices := cppTruncInt (m.speed / 100 + m.efficiency / 20) } }

/-- `UpdateMotorPhysics()` (lines 544-726): initialization, then the
update-coalescing guard — if the per-reading flag is already set the call
returns immediately with the cached state, otherwise it runs the full
ordered physics pass (which sets the flag). -/
def UpdateMotorPhysics (env : LEnv) (st : LState) : LState :=
  let st1 := InitializeMotor st
  if st1.physicsUpdatedThisReading then st1 else runPhysicsPass env st1

/-- `GetMotorSpeed()`. -/
def GetMotorSpeed (env : LEnv) (st : LState) : ℚ × LState :=
  let s := UpdateMotorPhysics env st
  (s.motor.speed, s)

/-- `GetMotorTemperature()`. -/
def GetMotorTemperature (env : LEnv) (st : LState) : ℚ × LState :=
  let s := UpdateMotorPhysics env st
  (s.motor.temperature, s)

/-- `GetMotorEfficiency()`. -/
def GetMotorEfficiency (env : LEnv) (st : LState) : ℚ × LState :=
  let s := UpdateMotorPhysics env st
  (s.motor.efficiency, s)

/-- `GetMotorPowerConsumption()`. -/
def GetMotorPowerConsumption (env : LEnv) (st : LState) : ℚ × LState :=
  let s := UpdateMotorPhysics env st
  (s.motor.powerConsumption, s)

/-- `GetMotorVibration()`. -/
def GetMotorVibration (env : LEnv) (st : LState) : ℚ × LState :=
  let s := UpdateMotorPhysics env st
  (s.motor.vibration, s)

/-- `GetMotorLoad()`. -/
def GetMotorLoad (env : LEnv) (st : LState) : ℚ × LState :=
  let s := UpdateMotorPhysics env st
  (s.motor.load, s)

/-- `GetMotorBearingWear()`. -/
def GetMotorBearingWear (env : LEnv) (st : LState) : ℚ × LState :=
  let s := UpdateMotorPhysics env st
  (s.motor.bearingWear, s)

/-- `GetMotorOilDegradation()`. -/
def GetMotorOilDegradation (env : LEnv) (st : LState) : ℚ × LState :=
  let s := UpdateMotorPhysics env st
  (s.motor.oilDegradation, s)

/-- `GetMotorOperatingHours()`. -/
def GetMotorOperatingHours (env : LEnv) (st : LState) : ℚ × LState :=
  let s := UpdateMotorPhysics env st
  (s.motor.operatingHours, s)

/-- `GetVibrationX()`. -/
def GetVibrationX (env : LEnv) (st : LState) : ℚ × LState :=
  let s := UpdateMotorPhysics env st
  (s.motor.vibrationX, s)

/-- `GetVibrationY()`. -/
def GetVibrationY (env : LEnv) (st : LState) : ℚ × LState :=
  let s := UpdateMotorPhysics env st
  (s.motor.vibrationY, s)

/-- `GetVibrationZ()`. -/
def GetVibrationZ (env : LEnv) (st : LState) : ℚ × LState :=
  let s := UpdateMotorPhysics env st
  (s.motor.vibrationZ, s)

/-- `ResetPhysicsUpdateFlag()` (lines 1066-1068): clears the per-reading
coalescing flag so that the next accessor runs a fresh physics pass. -/
def ResetPhysicsUpdateFlag (st : LState) : LState :=
  { st with physicsUpdatedThisReading := false }

/-- `ResetMotorState()` of `motor_engine.cpp` (lines 1061-1063): its
entire body is a call to `InitializeMotor()`. -/
def ResetMotorState (st : LState) : LState :=
  InitializeMotor st

end Legacy

/-! ## Concrete fixtures used by witnesses and counterexamples -/

/-- A legacy environment with trivial transcendental oracles and zero
elapsed session time. -/
def envL0 : Legacy.LEnv := ⟨fun _ => 0, fun _ => 0, 0⟩

/-- Legacy engine state: initialized, physics already updated for the
current reading. -/
def legacyReady : Legacy.LState := ⟨Legacy.initialMotor, true, true, []⟩

/-- Legacy engine state: initialized, flag cleared for the next reading. -/
def legacyFresh : Legacy.LState := ⟨Legacy.initialMotor, true, false, []⟩

/-- A multi-machine environment with trivial oracles, zero seasonal
factor, working hours active. -/
def env0 : Enhanced.Env := ⟨fun _ => 0, fun _ => 0, 0, true, 0⟩

/-- The pristine (uninitialized) multi-machine engine state. -/
def engine0 : Enhanced.EngineState := ⟨false, [], [], [], [], []⟩

/-- The multi-machine engine state right after first-use initialization. -/
def engineInit : Enhanced.EngineState := Enhanced.initializeIndustrialSystem env0 engine0

/-! ## Claim theorems -/

/-- C1: in the single-motor engine the physics pass is coalesced to at
most once per reading.  Once the updated-this-reading flag is set,
`UpdateMotorPhysics` is the identity, every accessor returns exactly the
stored field value without mutating the state, two accessor calls for
the same field within one tick agree, and `ResetPhysicsUpdateFlag`
clears the flag so that the next `UpdateMotorPhysics` call runs the full
physics pass. -/
theorem C1_update_coalescing (env : Legacy.LEnv) (st : Legacy.LState)
    (hin : st.initialized = true) (hfl : st.physicsUpdatedThisReading = true) :
    Legacy.UpdateMotorPhysics env st = st ∧
    Legacy.GetMotorSpeed env st = (st.motor.speed, st) ∧
    Legacy.GetMotorTemperature env st = (st.motor.temperature, st) ∧
    Legacy.GetMotorEfficiency env st = (st.motor.efficiency, st) ∧
    Legacy.GetMotorPowerConsumption env st = (st.motor.powerConsumption, st) ∧
    Legacy.GetMotorVibration env st = (st.motor.vibration, st) ∧
    Legacy.GetMotorLoad env st = (st.motor.load, st) ∧
    Legacy.GetMotorBearingWear env st = (st.motor.bearingWear, st) ∧
    Legacy.GetMotorOilDegradation env st = (st.motor.oilDegradation, st) ∧
    Legacy.GetMotorOperatingHours env st = (st.motor.operatingHours, st) ∧
    Legacy.GetVibrationX env st = (st.motor.vibrationX, st) ∧
    Legacy.GetVibrationY env st = (st.motor.vibrationY, st) ∧
    Legacy.GetVibrationZ env st = (st.motor.vibrationZ, st) ∧
    (Legacy.GetMotorSpeed env ((Legacy.GetMotorSpeed env st).2)).1 =
      (Legacy.GetMotorSpeed env st).1 ∧
    (Legacy.ResetPhysicsUpdateFlag st).physicsUpdatedThisReading = false ∧
    Legacy.UpdateMotorPhysics env (Legacy.ResetPhysicsUpdateFlag st) =
      Legacy.runPhysicsPass env (Legacy.ResetPhysicsUpdateFlag st) := by
  have h0 : Legacy.InitializeMotor st = st := by
    simp [Legacy.InitializeMotor, hin]
  have h1 : Legacy.UpdateMotorPhysics env st = st := by
    simp [Legacy.UpdateMotorPhysics, h0, hfl]
  have h2 : Legacy.InitializeMotor (Legacy.ResetPhysicsUpdateFlag st) =
      Legacy.ResetPhysicsUpdateFlag st := by
    simp [Legacy.InitializeMotor, Legacy.ResetPhysicsUpdateFlag, hin]
  refine ⟨h1, ?_, ?_, ?_, ?_, ?_, ?_, ?_, ?_, ?_, ?_, ?_, ?_, ?_, rfl, ?_⟩
  · simp [Legacy.GetMotorSpeed, h1]
  · simp [Legacy.GetMotorTemperature, h1]
  · simp [Legacy.GetMotorEfficiency, h1]
  · simp [Legacy.GetMotorPowerConsumption, h1]
  · simp [Legacy.GetMotorVibration, h1]
  · simp [Legacy.GetMotorLoad, h1]
  · simp [Legacy.GetMotorBearingWear, h1]
  · simp [Legacy.GetMotorOilDegradation, h1]
  · simp [Legacy.GetMotorOperatingHours, h1]
  · simp [Legacy.GetVibrationX, h1]
  · simp [Legacy.GetVibrationY, h1]
  · simp [Legacy.GetVibrationZ, h1]
  · simp [Legacy.GetMotorSpeed, h1]
  · simp only [Legacy.UpdateMotorPhysics]
    rw [h2]
    simp [Legacy.ResetPhysicsUpdateFlag]

/-- Witness for C1 at a concrete initialized, already-updated state. -/
theorem C1_update_coalescing_witness :
    Legacy.UpdateMotorPhysics envL0 legacyReady = legacyReady :=
  (C1_update_coalescing envL0 legacyReady rfl rfl).1

/-- C8: the legacy operating-time accessors of the multi-machine engine
are hard-coded to zero: they return 0 for every program state and leave
the state untouched, regardless of the hours accumulated in any
machine. -/
theorem C8_legacy_operating_time_zero (st : Enhanced.EngineState) :
    (Enhanced.GetOperatingHours st).1 = 0 ∧
    (Enhanced.GetOperatingMinutes st).1 = 0 ∧
    (Enhanced.GetOperatingSeconds st).1 = 0 ∧
    (Enhanced.GetOperatingHours st).2 = st ∧
    (Enhanced.GetOperatingMinutes st).2 = st ∧
    (Enhanced.GetOperatingSeconds st).2 = st :=
  ⟨rfl, rfl, rfl, rfl, rfl, rfl⟩

/-- C10: the legacy single-motor `ResetMotorState` only calls
`InitializeMotor`, which returns immediately once the engine is
initialized; so on any initialized state it changes nothing — in
particular `bearingWear`, `oilDegradation` and `operatingHours` keep
their accumulated values. -/
theorem C10_legacy_reset_is_noop (st : Legacy.LState) (hin : st.initialized = true) :
    Legacy.ResetMotorState st = st ∧
    (Legacy.ResetMotorState st).motor.bearingWear = st.motor.bearingWear ∧
    (Legacy.ResetMotorState st).motor.oilDegradation = st.motor.oilDegradation ∧
    (Legacy.ResetMotorState st).motor.operatingHours = st.motor.operatingHours := by
  have h : Legacy.ResetMotorState st = st := by
    simp [Legacy.ResetMotorState, Legacy.InitializeMotor, hin]
  exact ⟨h, by rw [h], by rw [h], by rw [h]⟩

/-- Witness for C10 at a concrete initialized state. -/
theorem C10_legacy_reset_is_noop_witness :
    Legacy.ResetMotorState legacyFresh = legacyFresh :=
  (C10_legacy_reset_is_noop legacyFresh rfl).1

/-- C2: after `updateMachinePhysics` runs on a running machine, for any
elapsed time `dt ≥ 0`, the stored fields satisfy the documented clamps:
efficiency in `[70, 96]`, vibration in `[0.5, 8.0]`, temperature in
`[ambient, 120]` with `ambient = 22 + seasonalFactor * 5`, health score
in `[0, 100]`, load in `[0.2, 1.0]`, power consumption in `[2, 15]`.
The seasonal factor is `0.1 * sin(...)`, hence bounded by `0.1` in
absolute value, which makes `ambient ≤ 120`. -/
theorem C2_machine_bounds (env : Enhanced.Env) (m : Enhanced.MachineState) (dt : ℚ)
    (hrun : m.isRunning = true) (_hdt : 0 ≤ dt) (hsf : |env.seasonalFactor| ≤ 0.1) :
    70 ≤ (Enhanced.updateMachinePhysics env m dt).efficiency ∧
    (Enhanced.updateMachinePhysics env m dt).efficiency ≤ 96 ∧
    0.5 ≤ (Enhanced.updateMachinePhysics env m dt).vibration ∧
    (Enhanced.updateMachinePhysics env m dt).vibration ≤ 8 ∧
    22 + env.seasonalFactor * 5 ≤ (Enhanced.updateMachinePhysics env m dt).temperature ∧
    (Enhanced.updateMachinePhysics env m dt).temperature ≤ 120 ∧
    0 ≤ (Enhanced.updateMachinePhysics env m dt).healthScore ∧
    (Enhanced.updateMachinePhysics env m dt).healthScore ≤ 100 ∧
    0.2 ≤ (Enhanced.updateMachinePhysics env m dt).load ∧
    (Enhanced.updateMachinePhysics env m dt).load ≤ 1 ∧
    2 ≤ (Enhanced.updateMachinePhysics env m dt).powerConsumption ∧
    (Enhanced.updateMachinePhysics env m dt).powerConsumption ≤ 15 := by
  have hsf2 := (abs_le.mp hsf).2
  have hamb : (22 : ℚ) + env.seasonalFactor * 5 ≤ 120 := by
    rw [show (0.1 : ℚ) = 1 / 10 by norm_num] at hsf2
    linarith
  simp only [Enhanced.updateMachinePhysics, hrun, if_true]
  exact ⟨le_cppClamp _ _ _, cppClamp_le _ (by norm_num),
    le_cppClamp _ _ _, cppClamp_le _ (by norm_num),
    le_cppClamp _ _ _, cppClamp_le _ hamb,
    le_cppClamp _ _ _, cppClamp_le _ (by norm_num),
    le_cppClamp _ _ _, cppClamp_le _ (by norm_num),
    le_cppClamp _ _ _, cppClamp_le _ (by norm_num)⟩

/-- Witness for C2: the main drive motor, one second of elapsed time,
zero seasonal factor. -/
theorem C2_machine_bounds_witness :
    70 ≤ (Enhanced.updateMachinePhysics env0 (Enhanced.mkMainMotor 0) 1).efficiency :=
  (C2_machine_bounds env0 (Enhanced.mkMainMotor 0) 1 rfl (by norm_num)
    (by norm_num [env0])).1

/-- C5 counterexample: a machine state meeting no Critical and no Warning
threshold, with `operatingHours = 1/2`.  The truncation `(int)0.5 = 0`
satisfies `0 % 100 == 0` and `operatingHours > 0`, so the code sets
MaintenanceDue (3) — but `floor(1/2) = 0` is not a *positive* multiple
of 100, so the claim as stated predicts Good (0). -/
theorem C5_maintenance_counterexample :
    Enhanced.maintStatusOf 0 0 70 1 90 (1 / 2) = 3 ∧
    Enhanced.maintStatusOf 0 0 70 1 90 (1 / 2) ≠ 0 ∧
    ⌊(1 / 2 : ℚ)⌋ = 0 := by
  refine ⟨?_, ?_, ?_⟩ <;> norm_num [Enhanced.maintStatusOf, cppTruncInt]

/-- C5 (amended): in `updateMachinePhysics`, for every field valuation
meeting no Critical and no Warning threshold, the status is
MaintenanceDue exactly when `operatingHours > 0` and the
truncation-toward-zero of `operatingHours` is divisible by 100 (this
includes every `operatingHours` in `(0, 1)`, where the truncation is 0 —
not only positive multiples of 100), and Good otherwise; the Critical
check takes priority (any `wear > 0.1` yields Critical regardless of the
other fields); and `updateMachinePhysics` stores exactly this status,
evaluated on the freshly updated fields. -/
theorem C5_maintenance_status (wear oil temp vib eff hours w2 o2 t2 v2 e2 h2 : ℚ)
    (hnc : ¬(wear > 0.1 ∨ oil > 0.05 ∨ temp > 90 ∨ vib > 3))
    (hnw : ¬(wear > 0.05 ∨ oil > 0.02 ∨ temp > 80 ∨ vib > 2.5 ∨ eff < 85))
    (hc2 : w2 > 0.1) :
    (Enhanced.maintStatusOf wear oil temp vib eff hours = 3 ↔
      hours > 0 ∧ (cppTruncInt hours).tmod 100 = 0) ∧
    (Enhanced.maintStatusOf wear oil temp vib eff hours = 0 ↔
      ¬(hours > 0 ∧ (cppTruncInt hours).tmod 100 = 0)) ∧
    Enhanced.maintStatusOf w2 o2 t2 v2 e2 h2 = 2 ∧
    (∀ (env : Enhanced.Env) (m : Enhanced.MachineState) (dt : ℚ),
      m.isRunning = true →
      (Enhanced.updateMachinePhysics env m dt).maintenanceStatus =
        Enhanced.maintStatusOf
          (Enhanced.updateMachinePhysics env m dt).bearingWear
          (Enhanced.updateMachinePhysics env m dt).oilDegradation
          (Enhanced.updateMachinePhysics env m dt).temperature
          (Enhanced.updateMachinePhysics env m dt).vibration
          (Enhanced.updateMachinePhysics env m dt).efficiency
          (Enhanced.updateMachinePhysics env m dt).operatingHours) := by
  refine ⟨?_, ?_, ?_, ?_⟩
  · simp only [Enhanced.maintStatusOf, if_neg hnc, if_neg hnw]
    split_ifs with h3 <;> simp [h3]
  · simp only [Enhanced.maintStatusOf, if_neg hnc, if_neg hnw]
    split_ifs with h3 <;> simp [h3]
  · simp only [Enhanced.maintStatusOf, if_pos (Or.inl hc2)]
  · intro env m dt hr
    simp only [Enhanced.updateMachinePhysics, hr, if_true]

/-- Witness for C5 at concrete field valuations. -/
theorem C5_maintenance_status_witness :
    Enhanced.maintStatusOf 0.2 0 0 0 90 0 = 2 :=
  (C5_maintenance_status 0 0 70 1 90 250 0.2 0 0 0 90 0
    (by norm_num) (by norm_num) (by norm_num)).2.2.1

/-- C6 counterexample: the jaw crusher (registry index 13) is seeded with
`healthScore = 82.0`, but `ResetMotorState` writes the fixed value
`95.0` into every machine — it does not restore the machine's own
category-specific initial health score. -/
theorem C6_reset_counterexample :
    (engineInit.machines.getD 13 default).healthScore = 82 ∧
    ((Enhanced.ResetMotorState env0 engineInit).machines.getD 13 default).healthScore = 95 ∧
    (82 : ℚ) ≠ 95 := by
  refine ⟨?_, ?_, by norm_num⟩ <;> rfl

/-- C6 (amended): `ResetMotorState` in the multi-machine engine sets, for
every machine in the registry, `bearingWear`, `oilDegradation` and
`operatingHours` to 0 and `maintenanceStatus` to Good — which are every
machine's initial seed values — but writes the fixed constant `95.0`
into `healthScore` (the main motor's seed, not each machine's own); it
leaves every other field (identity, name, category, run flag,
current/target speed, temperature, load, efficiency, power, vibration,
pressure, flow rate, timestamps) unchanged, and does not touch the edge
nodes or the ML models. -/
theorem C6_reset_fields (m : Enhanced.MachineState) (env : Enhanced.Env)
    (st : Enhanced.EngineState) (hin : st.initialized = true) :
    (Enhanced.resetMachine m).bearingWear = 0 ∧
    (Enhanced.resetMachine m).oilDegradation = 0 ∧
    (Enhanced.resetMachine m).operatingHours = 0 ∧
    (Enhanced.resetMachine m).healthScore = 95 ∧
    (Enhanced.resetMachine m).maintenanceStatus = 0 ∧
    (Enhanced.resetMachine m).id = m.id ∧
    (Enhanced.resetMachine m).name = m.name ∧
    (Enhanced.resetMachine m).type = m.type ∧
    (Enhanced.resetMachine m).isRunning = m.isRunning ∧
    (Enhanced.resetMachine m).currentSpeed = m.currentSpeed ∧
    (Enhanced.resetMachine m).targetSpeed = m.targetSpeed ∧
    (Enhanced.resetMachine m).temperature = m.temperature ∧
    (Enhanced.resetMachine m).load = m.load ∧
    (Enhanced.resetMachine m).efficiency = m.efficiency ∧
    (Enhanced.resetMachine m).powerConsumption = m.powerConsumption ∧
    (Enhanced.resetMachine m).vibration = m.vibration ∧
    (Enhanced.resetMachine m).pressure = m.pressure ∧
    (Enhanced.resetMachine m).flowRate = m.flowRate ∧
    (Enhanced.resetMachine m).lastMaintenance = m.lastMaintenance ∧
    (Enhanced.resetMachine m).installationTime = m.installationTime ∧
    (Enhanced.ResetMotorState env st).machines = st.machines.map Enhanced.resetMachine ∧
    (Enhanced.ResetMotorState env st).nodes = st.nodes ∧
    (Enhanced.ResetMotorState env st).models = st.models := by
  have hE : Enhanced.initializeIndustrialSystem env st = st := by
    simp [Enhanced.initializeIndustrialSystem, hin]
  refine ⟨rfl, rfl, rfl, rfl, rfl, rfl, rfl, rfl, rfl, rfl, rfl, rfl, rfl, rfl,
    rfl, rfl, rfl, rfl, rfl, rfl, ?_, ?_, ?_⟩ <;>
    simp [Enhanced.ResetMotorState, hE]

/-- Witness for C6 at the freshly initialized registry. -/
theorem C6_reset_fields_witness :
    (Enhanced.ResetMotorState env0 engineInit).nodes = engineInit.nodes :=
  (C6_reset_fields (Enhanced.mkMainMotor 0) env0 engineInit rfl).2.2.2.2.2.2.2.2.2.2.2.2.2.2.2.2.2.2.2.2.2.1

/-- C3: while running, bearing wear and oil degradation never decrease
across a physics update, in both engine variants, for every reachable
state.  The hypotheses characterize the reachable values: in the
multi-machine engine, speed and load are non-negative and temperature
stays at or above ambient (≥ 21 after the first clamp; machine seeds
are all ≥ 25).  In the legacy engine, `CalculateBearingWear` and
`CalculateOilDegradation` run after the stratified resamples of the same
pass, so at their call site load is a scenario value (≥ 0.45),
temperature is in `[60, 95)`, speed is in `[2000, 3000]`, and operating
hours start at 280 and only grow; under those bounds the per-update
increments are non-negative (the `hours * 0.0001` term dominates), so
the `[0, 1]`-clamped accumulators never decrease. -/
theorem C3_wear_oil_monotone (env : Enhanced.Env) (m : Enhanced.MachineState) (dt : ℚ)
    (hrun : m.isRunning = true) (hdt : 0 ≤ dt) (hsp : 0 ≤ m.currentSpeed)
    (hld : 0 ≤ m.load) (htm : 21 ≤ m.temperature)
    (lst : Legacy.LState) (hin : lst.initialized = true)
    (hh : 280 ≤ lst.motor.operatingHours) (hl : 0.45 ≤ lst.motor.load)
    (ht : 60 ≤ lst.motor.temperature) (hs : 2000 ≤ lst.motor.speed)
    (hw0 : 0 ≤ lst.motor.bearingWear) (hw1 : lst.motor.bearingWear ≤ 1)
    (ho1 : lst.motor.oilDegradation ≤ 1) :
    m.bearingWear ≤ (Enhanced.updateMachinePhysics env m dt).bearingWear ∧
    m.oilDegradation ≤ (Enhanced.updateMachinePhysics env m dt).oilDegradation ∧
    lst.motor.bearingWear ≤ (Legacy.CalculateBearingWear lst).2.motor.bearingWear ∧
    lst.motor.oilDegradation ≤ (Legacy.CalculateOilDegradation lst).2.motor.oilDegradation := by
  have hI : Legacy.InitializeMotor lst = lst := by
    simp [Legacy.InitializeMotor, hin]
  have hdt36 : (0 : ℚ) ≤ dt / 3600 := by positivity
  have hspn : (0 : ℚ) ≤ m.currentSpeed / 2500 := by positivity
  refine ⟨?_, ?_, ?_, ?_⟩
  · simp only [Enhanced.updateMachinePhysics, hrun, if_true]
    have hfac : (0 : ℚ) ≤ 1 + (m.temperature - 65) / 30 * 0.5 := by
      rw [show (0.5 : ℚ) = 1 / 2 by norm_num]
      linarith
    have hinc : (0 : ℚ) ≤
        m.currentSpeed / 2500 * m.load * (1 + (m.temperature - 65) / 30 * 0.5) *
          (dt / 3600) * 0.0008 := by
      have h1 := mul_nonneg (mul_nonneg (mul_nonneg hspn hld) hfac) hdt36
      have h2 : (0 : ℚ) ≤ (0.0008 : ℚ) := by norm_num
      exact mul_nonneg h1 h2
    linarith
  · simp only [Enhanced.updateMachinePhysics, hrun, if_true]
    have hfac : (0 : ℚ) ≤ 1 + (m.temperature - 65) / 20 * 0.3 := by
      rw [show (0.3 : ℚ) = 3 / 10 by norm_num]
      linarith
    have hinc : (0 : ℚ) ≤ (1 + (m.temperature - 65) / 20 * 0.3) * (dt / 3600) * 0.00015 := by
      have h1 := mul_nonneg hfac hdt36
      have h2 : (0 : ℚ) ≤ (0.00015 : ℚ) := by norm_num
      exact mul_nonneg h1 h2
    linarith
  · simp only [Legacy.CalculateBearingWear, hI]
    refine le_cppClamp_of 0 ?_ hw1
    have : (0 : ℚ) ≤ lst.motor.operatingHours * 0.0001 + (lst.motor.load - 0.5) * 0.01 +
        (lst.motor.temperature - 65) * 0.0005 + (lst.motor.speed / 2500 - 1) * 0.005 := by
      nlinarith [hh, hl, ht, hs]
    linarith
  · simp only [Legacy.CalculateOilDegradation, hI]
    refine le_cppClamp_of 0 ?_ ho1
    have : (0 : ℚ) ≤ lst.motor.operatingHours * 0.00005 +
        (lst.motor.temperature - 65) * 0.0002 + lst.motor.bearingWear * 0.01 := by
      nlinarith [hh, ht, hw0]
    linarith

/-- Witness for C3: the main drive motor with one second elapsed, and the
freshly initialized legacy motor state. -/
theorem C3_wear_oil_monotone_witness :
    (Enhanced.mkMainMotor 0).bearingWear ≤
      (Enhanced.updateMachinePhysics env0 (Enhanced.mkMainMotor 0) 1).bearingWear :=
  (C3_wear_oil_monotone env0 (Enhanced.mkMainMotor 0) 1 rfl (by norm_num) (by norm_num [Enhanced.mkMainMotor])
    (by norm_num [Enhanced.mkMainMotor]) (by norm_num [Enhanced.mkMainMotor])
    legacyFresh rfl (by norm_num [legacyFresh, Legacy.initialMotor])
    (by norm_num [legacyFresh, Legacy.initialMotor])
    (by norm_num [legacyFresh, Legacy.initialMotor])
    (by norm_num [legacyFresh, Legacy.initialMotor])
    (by norm_num [legacyFresh, Legacy.initialMotor])
    (by norm_num [legacyFresh, Legacy.initialMotor])
    (by norm_num [legacyFresh, Legacy.initialMotor])).1

/-- C7: every accessor family of the multi-machine engine returns its
documented sentinel on an index out of range for that family's own count
instead of signaling an error: `0` / `0.0` for the numeric accessors,
`false` for `GetMachineRunning`, `"UNKNOWN"` for the id accessors, and
an `"Unknown ..."` string for the name accessors; in particular
`GetMachineId(-1) = "UNKNOWN"`,
`GetMachineSpeed(GetIndustrialMachineCount()) = 0.0`, and likewise at the
edge-node and ML-model count boundaries
(`GetEdgeNodeCpuUsage(GetEdgeNodeCount())`,
`GetMLModelAccuracy(GetMLModelCount())`). -/
theorem C7_sentinel_returns (env : Enhanced.Env) (index : ℤ) (st : Enhanced.EngineState)
    (hin : st.initialized = true) :
    (¬ Enhanced.inRange index st.machines →
      (Enhanced.GetMachineId env index st).1 = "UNKNOWN" ∧
      (Enhanced.GetMachineName env index st).1 = "Unknown Machine" ∧
      (Enhanced.GetMachineType env index st).1 = 0 ∧
      (Enhanced.GetMachineRunning env index st).1 = false ∧
      (Enhanced.GetMachineSpeed env index st).1 = 0 ∧
      (Enhanced.GetMachineTemperature env index st).1 = 0 ∧
      (Enhanced.GetMachineLoad env index st).1 = 0 ∧
      (Enhanced.GetMachineEfficiency env index st).1 = 0 ∧
      (Enhanced.GetMachinePowerConsumption env index st).1 = 0 ∧
      (Enhanced.GetMachineVibration env index st).1 = 0 ∧
      (Enhanced.GetMachineHealthScore env index st).1 = 0 ∧
      (Enhanced.GetMachineMaintenanceStatus env index st).1 = 0) ∧
    (¬ Enhanced.inRange index st.nodes →
      (Enhanced.GetEdgeNodeId env index st).1 = "UNKNOWN" ∧
      (Enhanced.GetEdgeNodeName env index st).1 = "Unknown Node" ∧
      (Enhanced.GetEdgeNodeCpuUsage env index st).1 = 0 ∧
      (Enhanced.GetEdgeNodeMemoryUsage env index st).1 = 0 ∧
      (Enhanced.GetEdgeNodeNetworkLatency env index st).1 = 0 ∧
      (Enhanced.GetEdgeNodeProcessingTime env index st).1 = 0) ∧
    (¬ Enhanced.inRange index st.models →
      (Enhanced.GetMLModelId env index st).1 = "UNKNOWN" ∧
      (Enhanced.GetMLModelName env index st).1 = "Unknown Model" ∧
      (Enhanced.GetMLModelAccuracy env index st).1 = 0 ∧
      (Enhanced.GetMLModelConfidence env index st).1 = 0 ∧
      (Enhanced.GetMLModelFailureProbability env index st).1 = 0 ∧
      (Enhanced.GetMLModelRemainingUsefulLife env index st).1 = 0) ∧
    (Enhanced.GetMachineId env (-1) st).1 = "UNKNOWN" ∧
    (Enhanced.GetMachineSpeed env (Enhanced.GetIndustrialMachineCount env st).1 st).1 = 0 ∧
    (Enhanced.GetEdgeNodeCpuUsage env (Enhanced.GetEdgeNodeCount env st).1 st).1 = 0 ∧
    (Enhanced.GetMLModelAccuracy env (Enhanced.GetMLModelCount env st).1 st).1 = 0 := by
  have hE : Enhanced.initializeIndustrialSystem env st = st := by
    simp [Enhanced.initializeIndustrialSystem, hin]
  have hneg : ¬ Enhanced.inRange (-1 : ℤ) st.machines := by
    simp [Enhanced.inRange]
  have hlenm : ¬ Enhanced.inRange (st.machines.length : ℤ) st.machines := by
    simp [Enhanced.inRange]
  have hlenn : ¬ Enhanced.inRange (st.nodes.length : ℤ) st.nodes := by
    simp [Enhanced.inRange]
  have hlenq : ¬ Enhanced.inRange (st.models.length : ℤ) st.models := by
    simp [Enhanced.inRange]
  refine ⟨fun hm => ?_, fun hn => ?_, fun hq => ?_, ?_, ?_, ?_, ?_⟩
  · refine ⟨?_, ?_, ?_, ?_, ?_, ?_, ?_, ?_, ?_, ?_, ?_, ?_⟩
    · simp [Enhanced.GetMachineId, hE, hm]
    · simp [Enhanced.GetMachineName, hE, hm]
    · simp [Enhanced.GetMachineType, hE, hm]
    · simp [Enhanced.GetMachineRunning, hE, hm]
    · simp [Enhanced.GetMachineSpeed, Enhanced.machineFieldAccessor, hE, hm]
    · simp [Enhanced.GetMachineTemperature, Enhanced.machineFieldAccessor, hE, hm]
    · simp [Enhanced.GetMachineLoad, Enhanced.machineFieldAccessor, hE, hm]
    · simp [Enhanced.GetMachineEfficiency, Enhanced.machineFieldAccessor, hE, hm]
    · simp [Enhanced.GetMachinePowerConsumption, Enhanced.machineFieldAccessor, hE, hm]
    · simp [Enhanced.GetMachineVibration, Enhanced.machineFieldAccessor, hE, hm]
    · simp [Enhanced.GetMachineHealthScore, Enhanced.machineFieldAccessor, hE, hm]
    · simp [Enhanced.GetMachineMaintenanceStatus, hE, hm]
  · refine ⟨?_, ?_, ?_, ?_, ?_, ?_⟩
    · simp [Enhanced.GetEdgeNodeId, hE, hn]
    · simp [Enhanced.GetEdgeNodeName, hE, hn]
    · simp [Enhanced.GetEdgeNodeCpuUsage, Enhanced.edgeFieldAccessor, hE, hn]
    · simp [Enhanced.GetEdgeNodeMemoryUsage, Enhanced.edgeFieldAccessor, hE, hn]
    · simp [Enhanced.GetEdgeNodeNetworkLatency, Enhanced.edgeFieldAccessor, hE, hn]
    · simp [Enhanced.GetEdgeNodeProcessingTime, Enhanced.edgeFieldAccessor, hE, hn]
  · refine ⟨?_, ?_, ?_, ?_, ?_, ?_⟩
    · simp [Enhanced.GetMLModelId, hE, hq]
    · simp [Enhanced.GetMLModelName, hE, hq]
    · simp [Enhanced.GetMLModelAccuracy, Enhanced.mlFieldAccessor, hE, hq]
    · simp [Enhanced.GetMLModelConfidence, Enhanced.mlFieldAccessor, hE, hq]
    · simp [Enhanced.GetMLModelFailureProbability, Enhanced.mlFieldAccessor, hE, hq]
    · simp [Enhanced.GetMLModelRemainingUsefulLife, Enhanced.mlFieldAccessor, hE, hq]
  · simp [Enhanced.GetMachineId, hE, hneg]
  · simp [Enhanced.GetMachineSpeed, Enhanced.machineFieldAccessor,
      Enhanced.GetIndustrialMachineCount, hE, hlenm]
  · simp [Enhanced.GetEdgeNodeCpuUsage, Enhanced.edgeFieldAccessor,
      Enhanced.GetEdgeNodeCount, hE, hlenn]
  · simp [Enhanced.GetMLModelAccuracy, Enhanced.mlFieldAccessor,
      Enhanced.GetMLModelCount, hE, hlenq]

/-- Witness for C7: the initialized registry, at index 9 — in range for
the 17 machines but out of range for the 9 edge nodes. -/
theorem C7_sentinel_returns_witness :
    (Enhanced.GetEdgeNodeCpuUsage env0 9 engineInit).1 = 0 :=
  ((C7_sentinel_returns env0 9 engineInit rfl).2.1 (by decide)).2.2.1

/-- C9: once the registry is initialized, an accessor called with an
index out of range for its own family's count is completely side-effect
free: no physics update runs and the returned engine state — machines,
edge nodes, ML models and random streams — is exactly the state before
the call. -/
theorem C9_error_path_pure (env : Enhanced.Env) (index : ℤ) (st : Enhanced.EngineState)
    (hin : st.initialized = true) :
    (¬ Enhanced.inRange index st.machines →
      (Enhanced.GetMachineId env index st).2 = st ∧
      (Enhanced.GetMachineName env index st).2 = st ∧
      (Enhanced.GetMachineType env index st).2 = st ∧
      (Enhanced.GetMachineRunning env index st).2 = st ∧
      (Enhanced.GetMachineSpeed env index st).2 = st ∧
      (Enhanced.GetMachineTemperature env index st).2 = st ∧
      (Enhanced.GetMachineLoad env index st).2 = st ∧
      (Enhanced.GetMachineEfficiency env index st).2 = st ∧
      (Enhanced.GetMachinePowerConsumption env index st).2 = st ∧
      (Enhanced.GetMachineVibration env index st).2 = st ∧
      (Enhanced.GetMachineHealthScore env index st).2 = st ∧
      (Enhanced.GetMachineMaintenanceStatus env index st).2 = st) ∧
    (¬ Enhanced.inRange index st.nodes →
      (Enhanced.GetEdgeNodeId env index st).2 = st ∧
      (Enhanced.GetEdgeNodeName env index st).2 = st ∧
      (Enhanced.GetEdgeNodeCpuUsage env index st).2 = st ∧
      (Enhanced.GetEdgeNodeMemoryUsage env index st).2 = st ∧
      (Enhanced.GetEdgeNodeNetworkLatency env index st).2 = st ∧
      (Enhanced.GetEdgeNodeProcessingTime env index st).2 = st) ∧
    (¬ Enhanced.inRange index st.models →
      (Enhanced.GetMLModelId env index st).2 = st ∧
      (Enhanced.GetMLModelName env index st).2 = st ∧
      (Enhanced.GetMLModelAccuracy env index st).2 = st ∧
      (Enhanced.GetMLModelConfidence env index st).2 = st ∧
      (Enhanced.GetMLModelFailureProbability env index st).2 = st ∧
      (Enhanced.GetMLModelRemainingUsefulLife env index st).2 = st) := by
  have hE : Enhanced.initializeIndustrialSystem env st = st := by
    simp [Enhanced.initializeIndustrialSystem, hin]
  refine ⟨fun hm => ?_, fun hn => ?_, fun hq => ?_⟩
  · refine ⟨?_, ?_, ?_, ?_, ?_, ?_, ?_, ?_, ?_, ?_, ?_, ?_⟩
    · simp [Enhanced.GetMachineId, hE, hm]
    · simp [Enhanced.GetMachineName, hE, hm]
    · simp [Enhanced.GetMachineType, hE, hm]
    · simp [Enhanced.GetMachineRunning, hE, hm]
    · simp [Enhanced.GetMachineSpeed, Enhanced.machineFieldAccessor, hE, hm]
    · simp [Enhanced.GetMachineTemperature, Enhanced.machineFieldAccessor, hE, hm]
    · simp [Enhanced.GetMachineLoad, Enhanced.machineFieldAccessor, hE, hm]
    · simp [Enhanced.GetMachineEfficiency, Enhanced.machineFieldAccessor, hE, hm]
    · simp [Enhanced.GetMachinePowerConsumption, Enhanced.machineFieldAccessor, hE, hm]
    · simp [Enhanced.GetMachineVibration, Enhanced.machineFieldAccessor, hE, hm]
    · simp [Enhanced.GetMachineHealthScore, Enhanced.machineFieldAccessor, hE, hm]
    · simp [Enhanced.GetMachineMaintenanceStatus, hE, hm]
  · refine ⟨?_, ?_, ?_, ?_, ?_, ?_⟩
    · simp [Enhanced.GetEdgeNodeId, hE, hn]
    · simp [Enhanced.GetEdgeNodeName, hE, hn]
    · simp [Enhanced.GetEdgeNodeCpuUsage, Enhanced.edgeFieldAccessor, hE, hn]
    · simp [Enhanced.GetEdgeNodeMemoryUsage, Enhanced.edgeFieldAccessor, hE, hn]
    · simp [Enhanced.GetEdgeNodeNetworkLatency, Enhanced.edgeFieldAccessor, hE, hn]
    · simp [Enhanced.GetEdgeNodeProcessingTime, Enhanced.edgeFieldAccessor, hE, hn]
  · refine ⟨?_, ?_, ?_, ?_, ?_, ?_⟩
    · simp [Enhanced.GetMLModelId, hE, hq]
    · simp [Enhanced.GetMLModelName, hE, hq]
    · simp [Enhanced.GetMLModelAccuracy, Enhanced.mlFieldAccessor, hE, hq]
    · simp [Enhanced.GetMLModelConfidence, Enhanced.mlFieldAccessor, hE, hq]
    · simp [Enhanced.GetMLModelFailureProbability, Enhanced.mlFieldAccessor, hE, hq]
    · simp [Enhanced.GetMLModelRemainingUsefulLife, Enhanced.mlFieldAccessor, hE, hq]

/-- Witness for C9: the initialized registry, at index 6 — in range for
the machines and nodes but out of range for the 6 ML models. -/
theorem C9_error_path_pure_witness :
    (Enhanced.GetMLModelAccuracy env0 6 engineInit).2 = engineInit :=
  ((C9_error_path_pure env0 6 engineInit rfl).2.2 (by decide)).2.2.1

/-- Probe state for the band-count part of C4: the initialized motor with
a draw stream placing `d` at the band-selection position (the fourth
`gen()` call of `CalculateTemperature`). -/
def probeState (d : ℕ) : Legacy.LState :=
  ⟨Legacy.initialMotor, true, false, [0, 0, 0, d, 0]⟩

/-- The fourth draw of a `CalculateTemperature` call, seen through the
raw stream. -/
lemma rng_getD_three (l : List ℕ) : l.getD 3 0 = l.tail.tail.tail.headD 0 := by
  rcases l with _ | ⟨a, _ | ⟨b, _ | ⟨c, _ | ⟨d, l⟩⟩⟩⟩ <;>
    simp [List.getD]

/-- The fifth draw of a `CalculateTemperature` call, seen through the
raw stream. -/
lemma rng_getD_four (l : List ℕ) : l.getD 4 0 = l.tail.tail.tail.tail.headD 0 := by
  rcases l with _ | ⟨a, _ | ⟨b, _ | ⟨c, _ | ⟨d, _ | ⟨e, l⟩⟩⟩⟩⟩ <;>
    simp [List.getD]

/-- The value returned (and stored) by `CalculateTemperature` is a pure
function of its fourth and fifth random draws: the whole preceding
physics computation is discarded by the stratified override. -/
lemma calcTemperature_fst (st : Legacy.LState) :
    (Legacy.CalculateTemperature st).1 =
      if st.rng.getD 3 0 % 100 < 70 then 60 + (st.rng.getD 4 0 % 200 : ℕ) / (10 : ℚ)
      else if st.rng.getD 3 0 % 100 < 90 then 80 + (st.rng.getD 4 0 % 100 : ℕ) / (10 : ℚ)
      else 90 + (st.rng.getD 4 0 % 50 : ℕ) / (10 : ℚ) := by
  have hrng : (Legacy.InitializeMotor st).rng = st.rng := by
    unfold Legacy.InitializeMotor
    split <;> rfl
  simp only [Legacy.CalculateTemperature, Legacy.nextRand, hrng,
    rng_getD_three, rng_getD_four]

/-- C4: `CalculateTemperature` discards the clamped physics result and
stores a stratified resample.  With `d` the final uniform band draw over
`{0..99}`, the stored and returned temperature lies in `[60, 80)` when
`d < 70`, in `[80, 90)` when `70 ≤ d < 90`, and in `[90, 95)` when
`d ≥ 90`; the result is always in `[60, 95)`; it is independent of the
motor state the physics computation read (two states with the same draw
stream produce the same temperature); and over the 100 values of `d` the
three bands are hit 70, 20 and 10 times — probabilities 70%, 20%, 10%. -/
theorem C4_stratified_temperature (st : Legacy.LState) :
    (Legacy.CalculateTemperature st).2.motor.temperature = (Legacy.CalculateTemperature st).1 ∧
    (st.rng.getD 3 0 % 100 < 70 →
      60 ≤ (Legacy.CalculateTemperature st).1 ∧ (Legacy.CalculateTemperature st).1 < 80) ∧
    (70 ≤ st.rng.getD 3 0 % 100 → st.rng.getD 3 0 % 100 < 90 →
      80 ≤ (Legacy.CalculateTemperature st).1 ∧ (Legacy.CalculateTemperature st).1 < 90) ∧
    (90 ≤ st.rng.getD 3 0 % 100 →
      90 ≤ (Legacy.CalculateTemperature st).1 ∧ (Legacy.CalculateTemperature st).1 < 95) ∧
    (60 ≤ (Legacy.CalculateTemperature st).1 ∧ (Legacy.CalculateTemperature st).1 < 95) ∧
    (∀ st2 : Legacy.LState, st2.rng = st.rng →
      (Legacy.CalculateTemperature st2).1 = (Legacy.CalculateTemperature st).1) ∧
    ((Finset.range 100).filter
      (fun d => (Legacy.CalculateTemperature (probeState d)).1 < 80)).card = 70 ∧
    ((Finset.range 100).filter
      (fun d => 80 ≤ (Legacy.CalculateTemperature (probeState d)).1 ∧
        (Legacy.CalculateTemperature (probeState d)).1 < 90)).card = 20 ∧
    ((Finset.range 100).filter
      (fun d => 90 ≤ (Legacy.CalculateTemperature (probeState d)).1)).card = 10 := by
  have hval := calcTemperature_fst st
  have hn200 : ((st.rng.getD 4 0 % 200 : ℕ) : ℚ) < 200 := by
    exact_mod_cast Nat.mod_lt _ (by norm_num)
  have hn100 : ((st.rng.getD 4 0 % 100 : ℕ) : ℚ) < 100 := by
    exact_mod_cast Nat.mod_lt _ (by norm_num)
  have hn50 : ((st.rng.getD 4 0 % 50 : ℕ) : ℚ) < 50 := by
    exact_mod_cast Nat.mod_lt _ (by norm_num)
  have hp200 : (0 : ℚ) ≤ ((st.rng.getD 4 0 % 200 : ℕ) : ℚ) := Nat.cast_nonneg _
  have hp100 : (0 : ℚ) ≤ ((st.rng.getD 4 0 % 100 : ℕ) : ℚ) := Nat.cast_nonneg _
  have hp50 : (0 : ℚ) ≤ ((st.rng.getD 4 0 % 50 : ℕ) : ℚ) := Nat.cast_nonneg _
  have hprobe : ∀ d : ℕ, d < 100 → (Legacy.CalculateTemperature (probeState d)).1 =
      if d < 70 then 60 else if d < 90 then 80 else (90 : ℚ) := by
    intro d hd
    rw [calcTemperature_fst]
    have h3 : (probeState d).rng.getD 3 0 = d := rfl
    have h4 : (probeState d).rng.getD 4 0 = 0 := rfl
    rw [h3, h4, Nat.mod_eq_of_lt hd]
    norm_num
  refine ⟨rfl, ?_, ?_, ?_, ?_, ?_, ?_, ?_, ?_⟩
  · intro h70
    rw [hval, if_pos h70]
    constructor <;> linarith
  · intro h70 h90
    rw [hval, if_neg (by omega), if_pos h90]
    constructor <;> linarith
  · intro h90
    rw [hval, if_neg (by omega), if_neg (by omega)]
    constructor <;> linarith
  · rw [hval]
    split_ifs <;> constructor <;> linarith
  · intro st2 h2
    rw [calcTemperature_fst, calcTemperature_fst, h2]
  · have heq : ((Finset.range 100).filter
        (fun d => (Legacy.CalculateTemperature (probeState d)).1 < 80)) =
        (Finset.range 100).filter (fun d => d < 70) := by
      apply Finset.filter_congr
      intro x hx
      rw [Finset.mem_range] at hx
      rw [hprobe x hx]
      split_ifs with h1 h2 <;> norm_num <;> omega
    rw [heq]
    rfl
  · have heq : ((Finset.range 100).filter
        (fun d => 80 ≤ (Legacy.CalculateTemperature (probeState d)).1 ∧
          (Legacy.CalculateTemperature (probeState d)).1 < 90)) =
        (Finset.range 100).filter (fun d => 70 ≤ d ∧ d < 90) := by
      apply Finset.filter_congr
      intro x hx
      rw [Finset.mem_range] at hx
      rw [hprobe x hx]
      split_ifs with h1 h2 <;> norm_num <;> omega
    rw [heq]
    rfl
  · have heq : ((Finset.range 100).filter
        (fun d => 90 ≤ (Legacy.CalculateTemperature (probeState d)).1)) =
        (Finset.range 100).filter (fun d => 90 ≤ d) := by
      apply Finset.filter_congr
      intro x hx
      rw [Finset.mem_range] at hx
      rw [hprobe x hx]
      split_ifs with h1 h2 <;> norm_num <;> omega
    rw [heq]
    rfl

/-- Witness for C4: with the band draw 0 the temperature falls in the
normal band. -/
theorem C4_stratified_temperature_witness :
    60 ≤ (Legacy.CalculateTemperature (probeState 0)).1 ∧
    (Legacy.CalculateTemperature (probeState 0)).1 < 80 :=
  (C4_stratified_temperature (probeState 0)).2.1 (by decide)

end MotorSync
